import Mathlib

/-!
# frp-panel control plane: dispatch boundary and interactive session bridge

A shallow embedding of

* `biz/client/rpc_handler.go` : `HandleServerMessage`, the agent-side dispatcher of
  server envelopes;
* `biz/master/shell/handler.go` : `ptyHandler`, the bridge between a websocket
  terminal client and an agent-side pseudo-terminal;
* `cmd/frpp/shared/cmd.go` and `cmd/frpp/shared/providers.go` : `patchConfig`,
  `checkPullParams`, `JoinMaster` and `NewAutoJoin`, the handling of the command-line
  arguments of an agent;
* `biz/master/proxy/create_proxy_config.go` : `CreateProxyConfigWithTypedConfig`, the
  update of a client's proxy list.

Go functions become Lean functions.  Calls into collaborators whose code is outside the
embedded files (the wrapped handlers, the websocket connection, the agent stream, the
clock) are represented by the outcomes they produce, supplied as inputs, and by the
actions recorded in a trace.  A Go panic is an explicit `Outcome.panicked`.
-/

namespace FrpPanel

/-- Byte strings (`[]byte`). -/
abbrev Bytes := List UInt8

/-- The conversion `[]byte(s)` of a Go string literal: its UTF-8 bytes. -/
def bytesOf (s : String) : Bytes := s.toUTF8.data.toList

/-- Result of running a Go function body: it returns a value or it panics. -/
inductive Outcome (α : Type) where
  | returned (v : α)
  | panicked (fault : String)
  deriving DecidableEq, Repr

namespace pb

/-- Modelled from the spec: the generated declaration of `pb.Event` is not among the
source files.  The named values are the ones `HandleServerMessage` mentions together with
the unspecified value; `other code` stands for every remaining number an `int32` event
field can hold (further declared names and out-of-range numbers alike). -/
inductive Event where
  | EVENT_UNSPECIFIED
  | EVENT_ERROR
  | EVENT_UPDATE_FRPC
  | EVENT_REMOVE_FRPC
  | EVENT_START_FRPC
  | EVENT_STOP_FRPC
  | EVENT_START_STREAM_LOG
  | EVENT_STOP_STREAM_LOG
  | EVENT_START_PTY_CONNECT
  | EVENT_GET_PROXY_INFO
  | EVENT_CREATE_WORKER
  | EVENT_REMOVE_WORKER
  | EVENT_GET_WORKER_STATUS
  | EVENT_INSTALL_WORKERD
  | EVENT_PING
  | EVENT_PONG
  | other (code : Int)
  deriving DecidableEq, Repr

/-- Modelled from the spec: the envelope sent by the master to an agent
(`event`, `agentId`, `sessionId`, `data`); the generated struct is not among the sources. -/
structure ServerMessage where
  Event : Event
  ClientId : String := ""
  SessionId : String := ""
  Data : Bytes := []
  deriving DecidableEq, Repr

/-- Modelled from the spec: the envelope an agent answers with; the generated struct is
not among the sources.  A struct literal leaves the fields it does not name at their zero
value. -/
structure ClientMessage where
  Event : Event
  ClientId : String := ""
  SessionId : String := ""
  Data : Bytes := []
  deriving DecidableEq, Repr

end pb

/-- The twelve handler functions `HandleServerMessage` passes to `app.WrapperServerMsg`,
named as in the source. -/
inductive Handler where
  | UpdateFrpcHander
  | RemoveFrpcHandler
  | StartFRPCHandler
  | StopFRPCHandler
  | StartSteamLogHandler
  | StopSteamLogHandler
  | StartPTYConnect
  | GetProxyConfig
  | CreateWorker
  | RemoveWorker
  | GetWorkerStatus
  | InstallWorkerd
  deriving DecidableEq, Repr

/-- The behaviour of `app.WrapperServerMsg` (defined outside the embedded file): for an
application instance, a request and a handler it returns a message pointer (possibly nil)
or lets a panic of the handler through. -/
abbrev Wrapper (App : Type) :=
  App → pb.ServerMessage → Handler → Outcome (Option pb.ClientMessage)

/-- What one call of `HandleServerMessage` did. -/
structure DispatchRun where
  /-- Handlers passed to `app.WrapperServerMsg`, in call order. -/
  calls : List Handler
  /-- The deferred function saw a panic: `recover()` was non-nil and the diagnostic was
  printed. -/
  recovered : Bool
  /-- How the call ended for the caller. -/
  result : Outcome (Option pb.ClientMessage)
  deriving DecidableEq, Repr

/-- The body of `HandleServerMessage` below the `defer` (lines 21-60).  `rawData` is the
value of `proto.Marshal(conf.GetVersion().ToProto())`.  A nil `req` passes the nil-safe
getters of the log line and faults at `req.Event`. -/
def HandleServerMessage.body {App : Type} (WrapperServerMsg : Wrapper App) (rawData : Bytes)
    (appInstance : App) (req : Option pb.ServerMessage) :
    List Handler × Outcome (Option pb.ClientMessage) :=
  match req with
  | none => ([], .panicked "invalid memory address or nil pointer dereference")
  | some r =>
    match r.Event with
    | .EVENT_UPDATE_FRPC =>
        ([.UpdateFrpcHander], WrapperServerMsg appInstance r .UpdateFrpcHander)
    | .EVENT_REMOVE_FRPC =>
        ([.RemoveFrpcHandler], WrapperServerMsg appInstance r .RemoveFrpcHandler)
    | .EVENT_START_FRPC =>
        ([.StartFRPCHandler], WrapperServerMsg appInstance r .StartFRPCHandler)
    | .EVENT_STOP_FRPC =>
        ([.StopFRPCHandler], WrapperServerMsg appInstance r .StopFRPCHandler)
    | .EVENT_START_STREAM_LOG =>
        ([.StartSteamLogHandler], WrapperServerMsg appInstance r .StartSteamLogHandler)
    | .EVENT_STOP_STREAM_LOG =>
        ([.StopSteamLogHandler], WrapperServerMsg appInstance r .StopSteamLogHandler)
    | .EVENT_START_PTY_CONNECT =>
        ([.StartPTYConnect], WrapperServerMsg appInstance r .StartPTYConnect)
    | .EVENT_GET_PROXY_INFO =>
        ([.GetProxyConfig], WrapperServerMsg appInstance r .GetProxyConfig)
    | .EVENT_CREATE_WORKER =>
        ([.CreateWorker], WrapperServerMsg appInstance r .CreateWorker)
    | .EVENT_REMOVE_WORKER =>
        ([.RemoveWorker], WrapperServerMsg appInstance r .RemoveWorker)
    | .EVENT_GET_WORKER_STATUS =>
        ([.GetWorkerStatus], WrapperServerMsg appInstance r .GetWorkerStatus)
    | .EVENT_INSTALL_WORKERD =>
        ([.InstallWorkerd], WrapperServerMsg appInstance r .InstallWorkerd)
    | .EVENT_PING =>
        ([], .returned (some { Event := .EVENT_PONG, Data := rawData }))
    | _ =>
        ([], .returned (some { Event := .EVENT_ERROR, Data := bytesOf "unknown event" }))

/-- The function `HandleServerMessage` (lines 15-61): the body run under the deferred
`if err := recover(); err != nil { fmt.Printf(...) }`.  The result parameter is unnamed and
the deferred function assigns nothing, so a recovered panic makes the function return the
zero value of `*pb.ClientMessage`, the nil pointer. -/
def HandleServerMessage {App : Type} (WrapperServerMsg : Wrapper App) (rawData : Bytes)
    (appInstance : App) (req : Option pb.ServerMessage) : DispatchRun :=
  match HandleServerMessage.body WrapperServerMsg rawData appInstance req with
  | (calls, .returned v) => { calls := calls, recovered := false, result := .returned v }
  | (calls, .panicked _) => { calls := calls, recovered := true, result := .returned none }

/-- The thirteen events that have a `case` of their own in `HandleServerMessage`. -/
def handledEvents : List pb.Event :=
  [.EVENT_UPDATE_FRPC, .EVENT_REMOVE_FRPC, .EVENT_START_FRPC, .EVENT_STOP_FRPC,
   .EVENT_START_STREAM_LOG, .EVENT_STOP_STREAM_LOG, .EVENT_START_PTY_CONNECT,
   .EVENT_GET_PROXY_INFO, .EVENT_CREATE_WORKER, .EVENT_REMOVE_WORKER,
   .EVENT_GET_WORKER_STATUS, .EVENT_INSTALL_WORKERD, .EVENT_PING]

/-- A wrapper that answers every call with an empty message of event `EVENT_ERROR`. -/
def sampleWrapper : Wrapper Unit :=
  fun _ _ _ => .returned (some { Event := .EVENT_ERROR })

/-- A wrapper in which every handler panics. -/
def panickingWrapper : Wrapper Unit :=
  fun _ _ _ => .panicked "handler fault"

/-- The dispatcher hands the request to exactly one handler, `hd`, through
`app.WrapperServerMsg`, and whatever that call returns is returned unchanged. -/
def DispatchesTo {App : Type} (WrapperServerMsg : Wrapper App) (rawData : Bytes)
    (appInstance : App) (r : pb.ServerMessage) (hd : Handler) : Prop :=
  (HandleServerMessage WrapperServerMsg rawData appInstance (some r)).calls = [hd] ∧
  ∀ v, WrapperServerMsg appInstance r hd = .returned v →
    (HandleServerMessage WrapperServerMsg rawData appInstance (some r)).result = .returned v ∧
    (HandleServerMessage WrapperServerMsg rawData appInstance (some r)).recovered = false

/-! ## The interactive session bridge (`biz/master/shell/handler.go`) -/

namespace strconv

/-- Go's `strconv.Atoi` on a 64-bit platform: an optional sign followed by one or more
decimal digits, the value within the range of `int`; every other string is an error
(`none`). -/
def Atoi (s : String) : Option Int :=
  let split : Bool × List Char :=
    match s.toList with
    | '-' :: r => (true, r)
    | '+' :: r => (false, r)
    | cs => (false, cs)
  if split.2 = [] then none
  else if split.2.all Char.isDigit then
    let n : Nat := split.2.foldl (fun a c => 10 * a + (c.toNat - 48)) 0
    let v : Int := if split.1 then -(n : Int) else (n : Int)
    if -(2 ^ 63 : Int) ≤ v ∧ v < 2 ^ 63 then some v else none
  else none

end strconv

/-- The conversion `int32(x)`: the low 32 bits of `x`, read as a signed number. -/
def int32 (x : Int) : Int := (x + 2 ^ 31) % 2 ^ 32 - 2 ^ 31

namespace pb

/-- Modelled from the spec: the envelope of the session stream towards the agent (data,
terminal height and width, `done` flag); the generated struct is not among the sources.
`none` is a field left unset (a nil slice, a nil pointer). -/
structure PTYServerMessage where
  Data : Option Bytes := none
  Height : Option Int := none
  Width : Option Int := none
  Done : Bool := false
  deriving DecidableEq, Repr

end pb

/-- Websocket message types used by `ptyHandler`. -/
inductive MessageType where
  | BinaryMessage
  | PingMessage
  deriving DecidableEq, Repr

/-- The calls `ptyHandler` makes on its collaborators, each with the outcome it had
(`ok = false`: the call returned an error).  Log statements are not recorded. -/
inductive Action where
  /-- The call `upgrader.Upgrade(c.Writer, c.Request, nil)`. -/
  | Upgrade (ok : Bool)
  /-- The call `c.JSON(status, common.Err(msg))`. -/
  | JSON (status : Nat) (msg : String)
  /-- The call `rpc.CallClient(ctx, clientID, event, &pb.CommonRequest{})`. -/
  | CallClient (clientID : String) (event : pb.Event) (ok : Bool)
  /-- The call `proto.Unmarshal(cliMsg.GetData(), commonResp)`. -/
  | Unmarshal (ok : Bool)
  /-- The call `GetShellPTYMgr().Load(sessionID)`. -/
  | Load (sessionID : Bytes) (ok : Bool)
  /-- The call `cliConn.Send(msg)`. -/
  | Send (msg : pb.PTYServerMessage) (ok : Bool)
  /-- The call `cliConn.Recv()`. -/
  | Recv (ok : Bool)
  /-- The call `GetShellPTYMgr().SetSessionDone(sessionID)`. -/
  | SetSessionDone (sessionID : Bytes)
  /-- The call `webConn.WriteMessage(messageType, data)`. -/
  | WriteMessage (messageType : MessageType) (data : Bytes) (ok : Bool)
  /-- The call `webConn.ReadMessage()`. -/
  | ReadMessage (ok : Bool)
  /-- The call `webConn.Close()`. -/
  | Close (ok : Bool)
  /-- The call `time.Sleep(d)`, `d` in nanoseconds. -/
  | Sleep (d : Int)
  deriving DecidableEq, Repr

/-- One second as a `time.Duration` (nanoseconds). -/
def Second : Int := 1000000000

/-- Line 30. -/
def connectionErrorLimit : Nat := 10

/-- Line 31. -/
def keepalivePingTimeout : Int := 10 * Second

/-- The termination envelope `&pb.PTYServerMessage{Data: []byte("bye!"), Done: true}`. -/
def byeMessage : pb.PTYServerMessage := { Data := some (bytesOf "bye!"), Done := true }

/-- The statements shared by the two deferred functions (lines 103-110 and 125-132): send
the termination envelope, mark the session done, close the websocket; an error of `Send`
or `Close` is logged and nothing else. -/
def teardown (sessionID : Bytes) (sendOk closeOk : Bool) : List Action :=
  [.Send byeMessage sendOk, .SetSessionDone sessionID, .Close closeOk]

/-- A relay flow (one `wg.Go` closure) observed on a finite prefix of its inputs: the calls
it made, and how it left its loop; `exit = none` when it is still in the loop, waiting for
the next input. -/
structure Flow (ε : Type) where
  trace : List Action
  exit : Option ε
  deriving DecidableEq, Repr

/-- Put the calls of one loop round in front of the rest of the flow. -/
def Flow.after {ε : Type} (round : List Action) (rest : Flow ε) : Flow ε :=
  { trace := round ++ rest.trace, exit := rest.exit }

/-! ### Keepalive flow (lines 123-146) -/

/-- Inputs of one round of the keepalive loop. -/
structure KeepaliveTick where
  /-- The ping write succeeded. -/
  pingOk : Bool
  /-- The pong handler ran since the previous check: the last `time.Now()` it stored in
  `lastPongTime`. -/
  pong : Option Int
  /-- The clock read by `time.Since` after the sleep (nanoseconds). -/
  now : Int
  deriving DecidableEq, Repr

/-- The two `return`s of the keepalive loop. -/
inductive KeepaliveExit where
  | pingFailed
  | timedOut
  deriving DecidableEq, Repr

/-- The `for` loop of lines 134-145, `lastPongTime` being the shared variable of
lines 117-121. -/
def keepaliveLoop (lastPongTime : Int) : List KeepaliveTick → Flow KeepaliveExit
  | [] => { trace := [], exit := none }
  | t :: ts =>
    if !t.pingOk then
      { trace := [.WriteMessage .PingMessage (bytesOf "keepalive") false],
        exit := some .pingFailed }
    else
      let lastPongTime := t.pong.getD lastPongTime
      if t.now - lastPongTime > keepalivePingTimeout then
        { trace := [.WriteMessage .PingMessage (bytesOf "keepalive") true,
                    .Sleep (keepalivePingTimeout / 2)],
          exit := some .timedOut }
      else
        Flow.after [.WriteMessage .PingMessage (bytesOf "keepalive") true,
                    .Sleep (keepalivePingTimeout / 2)]
          (keepaliveLoop lastPongTime ts)

/-- The keepalive closure: the loop, then its deferred function once the loop returns. -/
def keepaliveFlow (sessionID : Bytes) (start : Int) (sendOk closeOk : Bool)
    (ticks : List KeepaliveTick) : Flow KeepaliveExit :=
  let l := keepaliveLoop start ticks
  match l.exit with
  | none => l
  | some e => { trace := l.trace ++ teardown sessionID sendOk closeOk, exit := some e }

/-! ### Agent-to-external flow (lines 149-183) -/

/-- Inputs of one round of the agent-to-external loop. -/
inductive AgentStep where
  /-- The call `cliConn.Recv()` failed; the outcomes of the three best-effort calls that follow. -/
  | recvErr (writeOk sendOk closeOk : Bool)
  /-- The call `cliConn.Recv()` gave a message with this data; the outcome of writing it to the
  websocket. -/
  | msg (data : Bytes) (writeOk : Bool)
  deriving DecidableEq, Repr

/-- The two ways out of the agent-to-external loop: the `break` of line 156 and the
`return` of line 170. -/
inductive AgentExit where
  | errorLimit
  | recvFailed
  deriving DecidableEq, Repr

/-- The `for` loop of lines 151-182 with its local `errorCounter`. -/
def agentLoop (errorCounter : Nat) : List AgentStep → Flow AgentExit
  | [] =>
    if errorCounter > connectionErrorLimit then { trace := [], exit := some .errorLimit }
    else { trace := [], exit := none }
  | .recvErr writeOk sendOk closeOk :: _ =>
    if errorCounter > connectionErrorLimit then { trace := [], exit := some .errorLimit }
    else
      { trace := [.Recv false, .WriteMessage .BinaryMessage (bytesOf "bye!") writeOk,
                  .Send byeMessage sendOk, .Close closeOk],
        exit := some .recvFailed }
  | .msg data writeOk :: rest =>
    if errorCounter > connectionErrorLimit then { trace := [], exit := some .errorLimit }
    else if !writeOk then
      Flow.after [.Recv true, .WriteMessage .BinaryMessage data false]
        (agentLoop (errorCounter + 1) rest)
    else
      Flow.after [.Recv true, .WriteMessage .BinaryMessage data true]
        (agentLoop 0 rest)

/-- The agent-to-external closure: `errorCounter := 0`, then the loop. -/
def agentFlow (steps : List AgentStep) : Flow AgentExit := agentLoop 0 steps

/-! ### External-to-agent flow (lines 186-227) -/

/-- The anonymous struct of lines 202-206 after `json.Unmarshal(data, &payload)`: each
field is a pointer, nil (`none`) when the frame does not give it.  `Height` and `Width`
are `uint16` values. -/
structure Payload where
  Data : Option String := none
  Height : Option Nat := none
  Width : Option Nat := none
  deriving DecidableEq, Repr

/-- Lines 209-218: the envelope built from a decoded frame. -/
def payloadMessage (payload : Payload) : pb.PTYServerMessage :=
  { Data := payload.Data.map bytesOf,
    Height := payload.Height.map (fun h => int32 ((h % 65536 : Nat) : Int)),
    Width := payload.Width.map (fun w => int32 ((w % 65536 : Nat) : Int)) }

/-- Inputs of one round of the external-to-agent loop. -/
inductive ExternalStep where
  /-- The call `webConn.ReadMessage()` failed; the outcomes of the two best-effort calls that
  follow. -/
  | readErr (sendOk closeOk : Bool)
  /-- The call `webConn.ReadMessage()` gave a frame, decoded into `payload`; the outcome of sending
  the envelope to the agent. -/
  | frame (payload : Payload) (sendOk : Bool)
  deriving DecidableEq, Repr

/-- The only way out of the external-to-agent loop: the `return` of line 200. -/
inductive ExternalExit where
  | readFailed
  deriving DecidableEq, Repr

/-- The `for` loop of lines 187-226. -/
def externalFlow : List ExternalStep → Flow ExternalExit
  | [] => { trace := [], exit := none }
  | .readErr sendOk closeOk :: _ =>
    { trace := [.ReadMessage false, .Send byeMessage sendOk, .Close closeOk],
      exit := some .readFailed }
  | .frame payload sendOk :: rest =>
    Flow.after [.ReadMessage true, .Send (payloadMessage payload) sendOk] (externalFlow rest)

/-! ### The handler (lines 29-232) -/

/-- The parts of the HTTP request `ptyHandler` reads. -/
structure Request where
  /-- Path parameter `c.Param("clientID")`. -/
  clientID : String
  /-- Query parameter `c.Query("height")`. -/
  height : String := ""
  /-- Query parameter `c.Query("width")`. -/
  width : String := ""
  deriving DecidableEq, Repr

/-- Outcomes of the calls `ptyHandler` makes on its collaborators. -/
structure Env where
  /-- The websocket upgrade succeeds. -/
  upgradeOk : Bool := true
  /-- Result of `rpc.CallClient`: `none` for an error, else `cliMsg.GetData()`. -/
  callClient : Option Bytes := some []
  /-- Result of `proto.Unmarshal` into `commonResp`: `none` for an error, else
  `commonResp.GetData()`. -/
  unmarshal : Option Bytes := some []
  /-- The session table has an entry for the session id. -/
  sessionLoaded : Bool := true
  /-- Outcome of the first `Send` (line 96). -/
  initSendOk : Bool := true
  /-- Clock reading of line 117. -/
  start : Int := 0
  /-- Inputs of the keepalive flow and outcomes of its deferred calls. -/
  keepalive : List KeepaliveTick := []
  keepaliveSendOk : Bool := true
  keepaliveCloseOk : Bool := true
  /-- Inputs of the agent-to-external flow. -/
  agent : List AgentStep := []
  /-- Inputs of the external-to-agent flow. -/
  external : List ExternalStep := []
  /-- Outcomes of the calls of the handler's deferred function. -/
  finalSendOk : Bool := true
  finalCloseOk : Bool := true
  deriving DecidableEq, Repr

/-- Lines 33-99 of `ptyHandler`: everything before the deferred function is installed. -/
inductive Setup where
  /-- The handler returned early, having made these calls. -/
  | rejected (trace : List Action)
  /-- The handler goes on to the relay phase for this session id. -/
  | relaying (sessionID : Bytes) (trace : List Action)
  deriving DecidableEq, Repr

/-- Lines 33-99 of `ptyHandler`. -/
def ptyHandler.setup (env : Env) (req : Request) : Setup :=
  if !env.upgradeOk then
    .rejected [.Upgrade false, .JSON 400 "websocket connect error"]
  else if req.clientID.length = 0 then
    .rejected [.Upgrade true, .Close true]
  else
    match (if req.height ≠ "" then strconv.Atoi req.height else some 0) with
    | none => .rejected [.Upgrade true, .Close true]
    | some initHeightInt =>
      match (if req.width ≠ "" then strconv.Atoi req.width else some 0) with
      | none => .rejected [.Upgrade true, .Close true]
      | some initWidthInt =>
        match env.callClient with
        | none =>
          .rejected [.Upgrade true, .CallClient req.clientID .EVENT_START_PTY_CONNECT false,
                     .Close true]
        | some _ =>
          match env.unmarshal with
          | none =>
            .rejected [.Upgrade true, .CallClient req.clientID .EVENT_START_PTY_CONNECT true,
                       .Unmarshal false, .Close true]
          | some sessionID =>
            if !env.sessionLoaded then
              .rejected [.Upgrade true,
                         .CallClient req.clientID .EVENT_START_PTY_CONNECT true,
                         .Unmarshal true, .Load sessionID false,
                         .JSON 500 "cannot get client"]
            else
              .relaying sessionID
                [.Upgrade true, .CallClient req.clientID .EVENT_START_PTY_CONNECT true,
                 .Unmarshal true, .Load sessionID true,
                 .Send { Height := some (int32 initHeightInt),
                         Width := some (int32 initWidthInt) } env.initSendOk]

/-- What one call of `ptyHandler` did.  The three relay flows run concurrently; their calls
are kept per flow, each list in program order, so that nothing is assumed about how the
scheduler interleaves them. -/
structure PtyRun where
  /-- Calls of the handler's own goroutine before `wg.Wait()`. -/
  main : List Action
  /-- Calls of the keepalive flow. -/
  keepalive : List Action := []
  /-- Calls of the agent-to-external flow. -/
  agent : List Action := []
  /-- Calls of the external-to-agent flow. -/
  external : List Action := []
  /-- Calls of the handler's deferred function (lines 101-111). -/
  deferred : List Action := []
  /-- The handler returned: `wg.Wait()` came back, or an early `return` was taken. -/
  returned : Bool
  deriving DecidableEq, Repr

/-- The function `ptyHandler`: the setup, then the three flows under a `conc.WaitGroup`; `wg.Wait()`
comes back once all three closures have returned, and the deferred function runs when the
handler returns. -/
def ptyHandler (env : Env) (req : Request) : PtyRun :=
  match ptyHandler.setup env req with
  | .rejected trace => { main := trace, returned := true }
  | .relaying sessionID trace =>
    let k := keepaliveFlow sessionID env.start env.keepaliveSendOk env.keepaliveCloseOk
      env.keepalive
    let a := agentFlow env.agent
    let x := externalFlow env.external
    let done := k.exit.isSome && a.exit.isSome && x.exit.isSome
    { main := trace
      keepalive := k.trace
      agent := a.trace
      external := x.trace
      deferred := if done then teardown sessionID env.finalSendOk env.finalCloseOk else []
      returned := done }

/-- All calls of a run, flow after flow. -/
def PtyRun.actions (r : PtyRun) : List Action :=
  r.main ++ r.keepalive ++ r.agent ++ r.external ++ r.deferred

/-- Is the action a call of `webConn.Close()`? -/
def Action.isClose : Action → Bool
  | .Close _ => true
  | _ => false

/-- Is the action a `Send` of the termination envelope? -/
def Action.isBye : Action → Bool
  | .Send msg _ => decide (msg = byeMessage)
  | _ => false

/-- Number of `webConn.Close()` calls in a run. -/
def PtyRun.closeCount (r : PtyRun) : Nat := r.actions.countP Action.isClose

/-- Number of termination envelopes sent to the agent in a run. -/
def PtyRun.byeCount (r : PtyRun) : Nat := r.actions.countP Action.isBye

/-! ### Vocabulary of the statements about the relay flows -/

/-- Inputs of the agent-to-external loop while `Recv` does not fail: one message per entry
of `ws`, with its data and the outcome of its write to the websocket. -/
def received (ws : List (Bytes × Bool)) : List AgentStep :=
  ws.map (fun w => .msg w.1 w.2)

/-- The calls of relaying every message of `ws`: one `Recv` and one binary write each, in
order. -/
def relayed : List (Bytes × Bool) → List Action
  | [] => []
  | w :: ws => .Recv true :: .WriteMessage .BinaryMessage w.1 w.2 :: relayed ws

/-- Value of `errorCounter` after the given write outcomes: a success resets it, a failure
adds one. -/
def counterAfter (errorCounter : Nat) : List Bool → Nat
  | [] => errorCounter
  | ok :: rest => counterAfter (if ok then 0 else errorCounter + 1) rest

/-- The calls of one round of the keepalive loop that reaches its check: the ping and the
sleep of half the timeout. -/
def pingRound : List Action :=
  [.WriteMessage .PingMessage (bytesOf "keepalive") true, .Sleep (keepalivePingTimeout / 2)]

/-- A session in which no pong ever arrives: the keepalive flow times out at its third
check, after which the other two flows fail on the closed endpoints. -/
def timeoutEnv : Env :=
  { callClient := some [1], unmarshal := some [115, 49],
    keepalive := [⟨true, none, 5 * Second⟩, ⟨true, none, 10 * Second⟩,
                  ⟨true, none, 15 * Second⟩],
    agent := [.recvErr false false false],
    external := [.readErr false false],
    finalSendOk := false, finalCloseOk := false }

/-- A session in which the agent sends eleven messages whose writes to the websocket all
fail, before the first keepalive check is due and while the external read is blocked. -/
def burstEnv : Env :=
  { callClient := some [1], unmarshal := some [115, 49],
    agent := List.replicate 11 (.msg [120] false) }

/-- The calls of `n` rounds of the keepalive loop that reach their check. -/
def pingRounds : Nat → List Action
  | 0 => []
  | n + 1 => pingRound ++ pingRounds n

/-- Inputs of the external-to-agent loop while `ReadMessage` does not fail: one frame per
entry of `fs`, with its decoded payload and the outcome of its `Send`. -/
def framed (fs : List (Payload × Bool)) : List ExternalStep :=
  fs.map (fun f => .frame f.1 f.2)

/-- The calls of forwarding every frame of `fs`: one `ReadMessage` and one `Send` each, in
order. -/
def forwarded : List (Payload × Bool) → List Action
  | [] => []
  | f :: fs => .ReadMessage true :: .Send (payloadMessage f.1) f.2 :: forwarded fs

/-- The `Send` attempts of a trace, in order: the envelope and the outcome of each. -/
def sendAttempts : List Action → List (pb.PTYServerMessage × Bool)
  | [] => []
  | .Send msg ok :: rest => (msg, ok) :: sendAttempts rest
  | _ :: rest => sendAttempts rest

/-- The binary frames written to the websocket in a trace, in order: the bytes of each. -/
def binaryWrites : List Action → List Bytes
  | [] => []
  | .WriteMessage .BinaryMessage data _ :: rest => data :: binaryWrites rest
  | _ :: rest => binaryWrites rest

/-- A session-open request for which the agent answers with a session id that is not in the
session table. -/
def lostSessionEnv : Env :=
  { callClient := some [1], unmarshal := some [115, 49], sessionLoaded := false }

/-- Inputs of the keepalive loop when every ping is written and no acknowledgment ever
arrives: one round per clock reading taken at the check. -/
def noAck (readings : List Int) : List KeepaliveTick :=
  readings.map (fun now => { pingOk := true, pong := none, now := now })

/-! ## Command-line scaffolding (`cmd/frpp/shared/cmd.go`, `cmd/frpp/shared/providers.go`) -/

namespace conf

/-- The fields of the `Master` section of `conf.Config` that `patchConfig` writes; the
declaration of `conf.Config` is not among the sources. -/
structure MasterSection where
  RPCHost : String := ""
  APIHost : String := ""
  RPCPort : Int := 0
  APIPort : Int := 0
  APIScheme : String := ""
  deriving DecidableEq, Repr

/-- The fields of the `Client` section of `conf.Config` that `patchConfig` and `NewAutoJoin`
read or write. -/
structure ClientSection where
  ID : String := ""
  Secret : String := ""
  APIUrl : String := ""
  RPCUrl : String := ""
  deriving DecidableEq, Repr

/-- The part of `conf.Config` used by the embedded functions. -/
structure Config where
  Master : MasterSection := {}
  Client : ClientSection := {}
  deriving DecidableEq, Repr

end conf

/-- The struct `CommonArgs` (cmd.go lines 24-36): every field is a pointer, `none` when
nil. -/
structure CommonArgs where
  ClientSecret : Option String := none
  ClientID : Option String := none
  RpcUrl : Option String := none
  ApiUrl : Option String := none
  RpcHost : Option String := none
  ApiHost : Option String := none
  RpcPort : Option Int := none
  ApiPort : Option Int := none
  ApiScheme : Option String := none
  JoinToken : Option String := none
  deriving DecidableEq, Repr

/-- The function `patchConfig` (cmd.go lines 351-399), `cfg` being the value of
`appInstance.GetConfig()`.  The condition of the second `if` reads `*commonArgs.RpcHost`
once `commonArgs.ApiHost` is non-nil, which faults when `RpcHost` is nil.  The closing log
statements are not recorded. -/
def patchConfig (cfg : conf.Config) (commonArgs : CommonArgs) : Outcome conf.Config :=
  let tmpCfg := cfg
  let tmpCfg :=
    match commonArgs.RpcHost with
    | some rpcHost =>
      if rpcHost.length > 0 then
        { tmpCfg with Master := { tmpCfg.Master with RPCHost := rpcHost, APIHost := rpcHost } }
      else tmpCfg
    | none => tmpCfg
  match commonArgs.ApiHost, commonArgs.RpcHost with
  | some _, none => .panicked "invalid memory address or nil pointer dereference"
  | apiHost, rpcHost =>
    let tmpCfg :=
      match apiHost, rpcHost with
      | some apiHost, some rpcHost =>
        if rpcHost.length > 0 then
          { tmpCfg with Master := { tmpCfg.Master with APIHost := apiHost } }
        else tmpCfg
      | _, _ => tmpCfg
    let tmpCfg :=
      match commonArgs.RpcPort with
      | some rpcPort =>
        if rpcPort > 0 then { tmpCfg with Master := { tmpCfg.Master with RPCPort := rpcPort } }
        else tmpCfg
      | none => tmpCfg
    let tmpCfg :=
      match commonArgs.ApiPort with
      | some apiPort =>
        if apiPort > 0 then { tmpCfg with Master := { tmpCfg.Master with APIPort := apiPort } }
        else tmpCfg
      | none => tmpCfg
    let tmpCfg :=
      match commonArgs.ApiScheme with
      | some apiScheme =>
        if apiScheme.length > 0 then
          { tmpCfg with Master := { tmpCfg.Master with APIScheme := apiScheme } }
        else tmpCfg
      | none => tmpCfg
    let tmpCfg :=
      match commonArgs.ClientID with
      | some clientID =>
        if clientID.length > 0 then
          { tmpCfg with Client := { tmpCfg.Client with ID := clientID } }
        else tmpCfg
      | none => tmpCfg
    let tmpCfg :=
      match commonArgs.ClientSecret with
      | some clientSecret =>
        if clientSecret.length > 0 then
          { tmpCfg with Client := { tmpCfg.Client with Secret := clientSecret } }
        else tmpCfg
      | none => tmpCfg
    let tmpCfg :=
      match commonArgs.ApiUrl with
      | some apiUrl =>
        if apiUrl.length > 0 then
          { tmpCfg with Client := { tmpCfg.Client with APIUrl := apiUrl } }
        else tmpCfg
      | none => tmpCfg
    let tmpCfg :=
      match commonArgs.RpcUrl with
      | some rpcUrl =>
        if rpcUrl.length > 0 then
          { tmpCfg with Client := { tmpCfg.Client with RPCUrl := rpcUrl } }
        else tmpCfg
      | none => tmpCfg
    .returned tmpCfg

/-- The function `checkPullParams` (cmd.go lines 515-534); the result is the error, `none`
for nil. -/
def checkPullParams (joinArgs : CommonArgs) : Option String :=
  if (match joinArgs.JoinToken with
      | some joinToken => joinToken.length == 0
      | none => false) then
    some "join token is empty"
  else
    let apiUrlAvaliable :=
      match joinArgs.ApiUrl with
      | some apiUrl => decide (apiUrl.length > 0)
      | none => false
    let rpcUrlAvaliable :=
      match joinArgs.RpcUrl with
      | some rpcUrl => decide (rpcUrl.length > 0)
      | none => false
    if !apiUrlAvaliable then some "api url is empty"
    else if !rpcUrlAvaliable then some "rpc url is empty"
    else none

namespace pb

/-- Response codes read by `JoinMaster`; the generated declaration is not among the
sources.  `other code` stands for every value that is not the success code or zero. -/
inductive RespCode where
  | RESP_CODE_UNSPECIFIED
  | RESP_CODE_SUCCESS
  | other (code : Int)
  deriving DecidableEq, Repr

/-- The part of `pb.Status` read by `JoinMaster`. -/
structure Status where
  Code : RespCode := .RESP_CODE_UNSPECIFIED
  Message : String := ""
  deriving DecidableEq, Repr

/-- The nil-safe chain `resp.GetStatus().GetCode()`. -/
def Status.GetCode : Option Status → RespCode
  | none => .RESP_CODE_UNSPECIFIED
  | some s => s.Code

/-- The part of `pb.Client` read by the callers of `JoinMaster`. -/
structure Client where
  Id : String := ""
  Secret : String := ""
  deriving DecidableEq, Repr

/-- The nil-safe getter `cli.GetId()`. -/
def Client.GetId : Option Client → String
  | none => ""
  | some c => c.Id

/-- The nil-safe getter `cli.GetSecret()`. -/
def Client.GetSecret : Option Client → String
  | none => ""
  | some c => c.Secret

/-- The part of `pb.GetClientResponse` read by `JoinMaster`. -/
structure GetClientResponse where
  Status : Option Status := none
  Client : Option Client := none
  deriving DecidableEq, Repr

/-- The part of `pb.InitClientResponse` read by `JoinMaster`. -/
structure InitClientResponse where
  Status : Option Status := none
  ClientId : String := ""
  deriving DecidableEq, Repr

end pb

/-- Outcomes of the three rpc calls `JoinMaster` can make, for the configuration passed to
them: each a Go pair of a response pointer and an error (`none` for nil).  The client id
computed by `JoinMaster` only feeds these calls. -/
structure JoinEnv where
  /-- Result of the first `rpc.GetClient` (line 445). -/
  getClient : conf.Config → Option pb.GetClientResponse × Option String :=
    fun _ => (none, none)
  /-- Result of `rpc.InitClient` (line 450). -/
  initClient : conf.Config → Option pb.InitClientResponse × Option String :=
    fun _ => (none, none)
  /-- Result of the second `rpc.GetClient` (line 465). -/
  getClientAgain : conf.Config → Option pb.GetClientResponse × Option String :=
    fun _ => (none, none)

/-- Lines 472-487 of `JoinMaster`: the checks after the retry block, `err` being the
variable declared at line 445. -/
def JoinMaster.finish (clientResp : Option pb.GetClientResponse) (err : Option String) :
    Option pb.Client × Option String :=
  match clientResp with
  | none => (none, err)
  | some resp =>
    if pb.Status.GetCode resp.Status ≠ .RESP_CODE_SUCCESS then (none, err)
    else
      match resp.Client with
      | none => (none, err)
      | some client => (some client, none)

/-- The function `JoinMaster` (cmd.go lines 425-488): the pair it returns, or the fault of
dereferencing a nil `joinArgs.JoinToken` at line 445.  Inside the retry block `err` is the
variable declared at line 450, which shadows the one of line 445. -/
def JoinMaster (env : JoinEnv) (cfg : conf.Config) (joinArgs : CommonArgs) :
    Outcome (Option pb.Client × Option String) :=
  match checkPullParams joinArgs with
  | some err => .returned (none, some err)
  | none =>
    match joinArgs.JoinToken with
    | none => .panicked "invalid memory address or nil pointer dereference"
    | some _ =>
      let clientResp := (env.getClient cfg).1
      let err := (env.getClient cfg).2
      if err.isSome || clientResp.isNone ||
          pb.Status.GetCode (clientResp.bind (·.Status)) ≠ .RESP_CODE_SUCCESS then
        match env.initClient cfg with
        | (_, some err) => .returned (none, some err)
        | (none, none) => .returned (none, none)
        | (some initResp, none) =>
          if pb.Status.GetCode initResp.Status ≠ .RESP_CODE_SUCCESS then
            .returned (none, none)
          else
            match env.getClientAgain cfg with
            | (_, some err) => .returned (none, some err)
            | (clientResp, none) => .returned (JoinMaster.finish clientResp err)
      else
        .returned (JoinMaster.finish clientResp err)

/-- The role constants compared by `NewAutoJoin`; the declaration of `defs.AppRole` is not
among the sources.  `other` stands for every role that is not the client role. -/
inductive AppRole where
  | AppRole_Client
  | other (name : String)
  deriving DecidableEq, Repr

/-- How a call ends: it returns, it panics, or it ends the process through
`logger.Fatal`. -/
inductive Ending (α : Type) where
  | returned (v : α)
  | panicked (fault : String)
  | exited (msg : String)
  deriving DecidableEq, Repr

/-- What one call of `NewAutoJoin` did. -/
structure AutoJoinRun where
  /-- Arguments of the calls of `JoinMaster`, in call order. -/
  joinCalls : List (conf.Config × CommonArgs)
  /-- How the call ended. -/
  result : Ending conf.Config
  deriving DecidableEq, Repr

/-- The function `NewAutoJoin` (providers.go lines 301-351).  The application instance
stores the configuration it is given: `GetConfig` returns the value of the last
`SetConfig`. -/
def NewAutoJoin (env : JoinEnv) (Role : AppRole) (Cfg : conf.Config)
    (commonArgs : CommonArgs) : AutoJoinRun :=
  let clientID := Cfg.Client.ID
  let clientSecret := Cfg.Client.Secret
  if Role ≠ .AppRole_Client then { joinCalls := [], result := .returned Cfg }
  else
    let autoJoin : Ending Bool :=
      if clientSecret.length = 0 ∨ clientID.length = 0 then
        if (match commonArgs.JoinToken with
            | some joinToken => decide (joinToken.length > 0)
            | none => false) then .returned true
        else if clientSecret.length = 0 then .exited "client secret cannot be empty"
        else if clientID.length = 0 then .exited "client id cannot be empty"
        else .returned false
      else .returned false
    match autoJoin with
    | .exited msg => { joinCalls := [], result := .exited msg }
    | .panicked fault => { joinCalls := [], result := .panicked fault }
    | .returned false => { joinCalls := [], result := .returned Cfg }
    | .returned true =>
      match JoinMaster env Cfg commonArgs with
      | .panicked fault => { joinCalls := [(Cfg, commonArgs)], result := .panicked fault }
      | .returned (_, some err) =>
        { joinCalls := [(Cfg, commonArgs)], result := .exited ("join master failed: " ++ err) }
      | .returned (cli, none) =>
        { joinCalls := [(Cfg, commonArgs)],
          result := .returned
            { Cfg with Client := { Cfg.Client with ID := pb.Client.GetId cli,
                                                   Secret := pb.Client.GetSecret cli } } }

/-- Join arguments with a token and both urls. -/
def sampleJoinArgs : CommonArgs :=
  { JoinToken := some "tok", ApiUrl := some "http://m:9000", RpcUrl := some "grpc://m:9001" }

/-- A master whose first `rpc.GetClient` answers with the success status and the client
`c1`. -/
def knownClientEnv : JoinEnv :=
  { getClient := fun _ =>
      (some { Status := some { Code := .RESP_CODE_SUCCESS },
              Client := some { Id := "c1", Secret := "s3cr3t" } }, none) }

/-- A master whose first `rpc.GetClient` answers with the success status and no client,
without error. -/
def noClientEnv : JoinEnv :=
  { getClient := fun _ => (some { Status := some { Code := .RESP_CODE_SUCCESS } }, none) }

/-! ## Proxy configuration (`biz/master/proxy/create_proxy_config.go`) -/

namespace v1

/-- The part of frp's `v1.TypedProxyConfig` that `CreateProxyConfigWithTypedConfig` reads:
the name given by `GetBaseConfig().Name`; `Detail` stands for the rest of the proxy's
configuration. -/
structure TypedProxyConfig where
  Name : String
  Detail : String := ""
  deriving DecidableEq, Repr

/-- The part of frp's `v1.ClientConfig` that `CreateProxyConfigWithTypedConfig` touches:
the proxy list; `Other` stands for every other field. -/
structure ClientConfig where
  Proxies : List TypedProxyConfig := []
  Other : String := ""
  deriving DecidableEq, Repr

end v1

namespace models

/-- The fields of `models.ProxyConfig` read from an existing record. -/
structure ProxyConfig where
  ClientID : String := ""
  ServerID : String := ""
  deriving DecidableEq, Repr

end models

/-- Errors of the proxy lookup, as far as line 105 tells them apart:
`gorm.ErrRecordNotFound` and every other error. -/
inductive DaoError where
  | ErrRecordNotFound
  | other (msg : String)
  deriving DecidableEq, Repr

/-- The struct `CreateProxyConfigWithTypedConfigParam` (lines 71-78); the client entity is
represented by the outcomes of its methods in `ProxyEnv`, and `WorkerID` is not read. -/
structure CreateProxyConfigWithTypedConfigParam where
  ClientID : String
  ServerID : String
  ProxyCfg : v1.TypedProxyConfig
  Overwrite : Bool := false
  deriving DecidableEq, Repr

/-- Outcomes of the calls `CreateProxyConfigWithTypedConfig` makes on its collaborators; an
error is `none` when nil. -/
structure ProxyEnv where
  /-- Error of `proxyCfg.FillClientConfig(clientEntity)`. -/
  FillClientConfig : Option String := none
  /-- Error of `proxyCfg.FillTypedProxyConfig(typedProxyCfg)`. -/
  FillTypedProxyConfig : Option String := none
  /-- Result of `GetProxyConfigByOriginClientIDAndName`: the record pointer and the error. -/
  GetProxyConfigByOriginClientIDAndName : Option models.ProxyConfig × Option DaoError :=
    (none, some .ErrRecordNotFound)
  /-- Result of `clientEntity.GetConfigContent()`: the configuration pointer and the
  error. -/
  GetConfigContent : Option v1.ClientConfig × Option String := (some {}, none)
  /-- Error of `clientEntity.SetConfigContent(*oldCfg)`. -/
  SetConfigContent : Option String := none
  /-- Error of `clientEntity.MarshalJSONConfig()`. -/
  MarshalJSONConfig : Option String := none
  /-- Error of `client.UpdateFrpcHander`. -/
  UpdateFrpcHander : Option String := none
  /-- Error of `DeleteProxyConfig`. -/
  DeleteProxyConfig : Option String := none
  deriving DecidableEq, Repr

/-- Lines 120-123: `lo.Filter` keeps, in order, the proxies whose name differs from the new
proxy's name, and `append` puts the new proxy at the end. -/
def updateProxies (Proxies : List v1.TypedProxyConfig) (typedProxyCfg : v1.TypedProxyConfig) :
    List v1.TypedProxyConfig :=
  Proxies.filter (fun proxy => proxy.Name != typedProxyCfg.Name) ++ [typedProxyCfg]

/-- What one call of `CreateProxyConfigWithTypedConfig` did. -/
structure ProxyRun where
  /-- Argument of the call `clientEntity.SetConfigContent`, when it was made. -/
  stored : Option v1.ClientConfig := none
  /-- The call `client.UpdateFrpcHander` was made. -/
  updated : Bool := false
  /-- The call `DeleteProxyConfig` was made. -/
  deleted : Bool := false
  /-- How the call ended: the error returned (`none` for nil), or a fault. -/
  result : Outcome (Option String)
  deriving DecidableEq, Repr

/-- The function `CreateProxyConfigWithTypedConfig` (lines 80-161).  Log statements are not
recorded. -/
def CreateProxyConfigWithTypedConfig (env : ProxyEnv)
    (param : CreateProxyConfigWithTypedConfigParam) : ProxyRun :=
  let serverID := param.ServerID
  let typedProxyCfg := param.ProxyCfg
  let overwrite := param.Overwrite
  match env.FillClientConfig with
  | some err => { result := .returned (some err) }
  | none =>
  match env.FillTypedProxyConfig with
  | some err => { result := .returned (some err) }
  | none =>
  let existedProxyCfg := env.GetProxyConfigByOriginClientIDAndName.1
  let err := env.GetProxyConfigByOriginClientIDAndName.2
  match err with
  | some (.other msg) => { result := .returned (some msg) }
  | _ =>
  if !overwrite && err.isNone then
    { result := .returned (some "proxy config already exist") }
  else
  match env.GetConfigContent with
  | (_, some err) => { result := .returned (some err) }
  | (none, none) =>
    { result := .panicked "invalid memory address or nil pointer dereference" }
  | (some oldCfg, none) =>
    let oldCfg := { oldCfg with Proxies := updateProxies oldCfg.Proxies typedProxyCfg }
    match env.SetConfigContent with
    | some err => { stored := some oldCfg, result := .returned (some err) }
    | none =>
    match env.MarshalJSONConfig with
    | some err => { stored := some oldCfg, result := .returned (some err) }
    | none =>
    if (match existedProxyCfg with
        | some existed => existed.ServerID != serverID
        | none => false) then
      match env.DeleteProxyConfig with
      | some err =>
        { stored := some oldCfg, updated := true, deleted := true,
          result := .returned (some err) }
      | none =>
        { stored := some oldCfg, updated := true, deleted := true, result := .returned none }
    else
      { stored := some oldCfg, updated := true, result := .returned none }

/-- A configuration with three proxies, two of them named `web`. -/
def sampleClientConfig : v1.ClientConfig :=
  { Proxies := [{ Name := "web", Detail := "a" }, { Name := "ssh" },
                { Name := "web", Detail := "b" }],
    Other := "auth" }

/-- The call gets past the existence check of lines 93-113: both fills succeed and the
lookup either finds no record, or finds one while `Overwrite` is set. -/
def reachesUpdate (env : ProxyEnv) (param : CreateProxyConfigWithTypedConfigParam) : Prop :=
  env.FillClientConfig = none ∧ env.FillTypedProxyConfig = none ∧
  (env.GetProxyConfigByOriginClientIDAndName.2 = some .ErrRecordNotFound ∨
   (env.GetProxyConfigByOriginClientIDAndName.2 = none ∧ param.Overwrite = true))

/-! ## Theorems: the dispatch boundary -/

/-- The handlers passed to the wrapper are those of the body. -/
theorem HandleServerMessage_calls_eq {App : Type} (W : Wrapper App) (rawData : Bytes)
    (app : App) (req : Option pb.ServerMessage) :
    (HandleServerMessage W rawData app req).calls
      = (HandleServerMessage.body W rawData app req).1 := by
  unfold HandleServerMessage
  split <;> simp_all

/-- A body that returns: the deferred function sees no panic. -/
theorem HandleServerMessage_of_returned {App : Type} (W : Wrapper App) (rawData : Bytes)
    (app : App) (req : Option pb.ServerMessage) (v : Option pb.ClientMessage)
    (h : (HandleServerMessage.body W rawData app req).2 = .returned v) :
    (HandleServerMessage W rawData app req).result = .returned v ∧
    (HandleServerMessage W rawData app req).recovered = false := by
  unfold HandleServerMessage
  split <;> simp_all

/-- A body that panics: the deferred function recovers and nil is returned. -/
theorem HandleServerMessage_of_panicked {App : Type} (W : Wrapper App) (rawData : Bytes)
    (app : App) (req : Option pb.ServerMessage) (fault : String)
    (h : (HandleServerMessage.body W rawData app req).2 = .panicked fault) :
    (HandleServerMessage W rawData app req).result = .returned none ∧
    (HandleServerMessage W rawData app req).recovered = true := by
  unfold HandleServerMessage
  split <;> simp_all

/-- Claim C1. A server message whose event is not one of the thirteen handled kinds makes
`HandleServerMessage` call no handler and return a non-nil message with event `EVENT_ERROR`
and data the bytes of "unknown event"; `EVENT_PONG`, `EVENT_ERROR`, the unspecified value
and every other number are such events. -/
theorem HandleServerMessage_unknown_event {App : Type} (WrapperServerMsg : Wrapper App)
    (rawData : Bytes) (appInstance : App) (r : pb.ServerMessage)
    (h : r.Event ∉ handledEvents) :
    (HandleServerMessage WrapperServerMsg rawData appInstance (some r)).calls = [] ∧
    (HandleServerMessage WrapperServerMsg rawData appInstance (some r)).result =
      .returned (some { Event := .EVENT_ERROR, Data := bytesOf "unknown event" }) ∧
    pb.Event.EVENT_PONG ∉ handledEvents ∧ pb.Event.EVENT_ERROR ∉ handledEvents ∧
    pb.Event.EVENT_UNSPECIFIED ∉ handledEvents ∧ ∀ n, pb.Event.other n ∉ handledEvents := by
  refine ⟨?_, ?_, by decide, by decide, by decide, fun n => by simp [handledEvents]⟩
  · rcases r with ⟨e, c, s, d⟩
    cases e <;> simp [handledEvents] at h <;>
      simp [HandleServerMessage, HandleServerMessage.body]
  · rcases r with ⟨e, c, s, d⟩
    cases e <;> simp [handledEvents] at h <;>
      simp [HandleServerMessage, HandleServerMessage.body]

/-- Witness of C1: a `EVENT_PONG` message sent to the dispatcher. -/
theorem HandleServerMessage_unknown_event_witness :
    pb.Event.EVENT_PONG ∉ handledEvents ∧
    (HandleServerMessage sampleWrapper [] () (some { Event := .EVENT_PONG })).calls = [] ∧
    (HandleServerMessage sampleWrapper [] () (some { Event := .EVENT_PONG })).result =
      .returned (some { Event := .EVENT_ERROR, Data := bytesOf "unknown event" }) :=
  ⟨by decide,
   (HandleServerMessage_unknown_event sampleWrapper [] () { Event := .EVENT_PONG }
      (by decide)).1,
   (HandleServerMessage_unknown_event sampleWrapper [] () { Event := .EVENT_PONG }
      (by decide)).2.1⟩

/-- Counterexample to C2: with a handler that panics, an `EVENT_UPDATE_FRPC` message makes
`HandleServerMessage` call the wrapper, recover the panic and return the nil pointer, not
a message with event `EVENT_ERROR`. -/
theorem HandleServerMessage_panic_not_error_reply :
    (HandleServerMessage panickingWrapper [] () (some { Event := .EVENT_UPDATE_FRPC })).calls
      = [.UpdateFrpcHander] ∧
    panickingWrapper () { Event := .EVENT_UPDATE_FRPC } .UpdateFrpcHander
      = .panicked "handler fault" ∧
    (HandleServerMessage panickingWrapper [] () (some { Event := .EVENT_UPDATE_FRPC })).result
      = .returned none ∧
    ¬ ∃ m : pb.ClientMessage,
      (HandleServerMessage panickingWrapper [] ()
          (some { Event := .EVENT_UPDATE_FRPC })).result = .returned (some m) ∧
        m.Event = .EVENT_ERROR := by
  refine ⟨rfl, rfl, rfl, ?_⟩
  rintro ⟨m, hm, -⟩
  simp [HandleServerMessage, HandleServerMessage.body, panickingWrapper] at hm

/-- Claim C2, amended. When the call of `app.WrapperServerMsg` made for a server message
panics, `HandleServerMessage` recovers the panic, prints the diagnostic and returns the nil
pointer to its caller. -/
theorem HandleServerMessage_panic_recovered {App : Type} (WrapperServerMsg : Wrapper App)
    (rawData : Bytes) (appInstance : App) (r : pb.ServerMessage) (hd : Handler)
    (fault : String)
    (hcall : (HandleServerMessage WrapperServerMsg rawData appInstance (some r)).calls = [hd])
    (hpanic : WrapperServerMsg appInstance r hd = .panicked fault) :
    (HandleServerMessage WrapperServerMsg rawData appInstance (some r)).recovered = true ∧
    (HandleServerMessage WrapperServerMsg rawData appInstance (some r)).result
      = .returned none := by
  rw [HandleServerMessage_calls_eq] at hcall
  have key : (HandleServerMessage.body WrapperServerMsg rawData appInstance (some r)).2
      = .panicked fault := by
    rcases r with ⟨e, c, s, d⟩
    cases e <;> simp [HandleServerMessage.body] at hcall ⊢ <;> (subst hcall; exact hpanic)
  have := HandleServerMessage_of_panicked WrapperServerMsg rawData appInstance (some r) fault key
  exact ⟨this.2, this.1⟩

/-- Witness of the amended C2: the panicking wrapper on an `EVENT_UPDATE_FRPC` message. -/
theorem HandleServerMessage_panic_recovered_witness :
    (HandleServerMessage panickingWrapper [] () (some { Event := .EVENT_UPDATE_FRPC })).recovered
      = true ∧
    (HandleServerMessage panickingWrapper [] () (some { Event := .EVENT_UPDATE_FRPC })).result
      = .returned none :=
  HandleServerMessage_panic_recovered panickingWrapper [] () { Event := .EVENT_UPDATE_FRPC }
    .UpdateFrpcHander "handler fault" rfl rfl

/-- Claim C3. For every server message, the nil pointer included, and every behaviour of the
wrapped handlers, a panicking one included, `HandleServerMessage` returns to its caller. -/
theorem HandleServerMessage_returns {App : Type} (WrapperServerMsg : Wrapper App)
    (rawData : Bytes) (appInstance : App) (req : Option pb.ServerMessage) :
    (∃ v, (HandleServerMessage WrapperServerMsg rawData appInstance req).result
      = .returned v) ∧
    (HandleServerMessage WrapperServerMsg rawData appInstance none).result
      = .returned none := by
  refine ⟨?_, rfl⟩
  unfold HandleServerMessage
  split <;> exact ⟨_, rfl⟩

/-- A body that is one wrapper call dispatches to that handler. -/
theorem DispatchesTo_of_body {App : Type} (W : Wrapper App) (rawData : Bytes) (app : App)
    (r : pb.ServerMessage) (hd : Handler)
    (h : HandleServerMessage.body W rawData app (some r) = ([hd], W app r hd)) :
    DispatchesTo W rawData app r hd := by
  refine ⟨by rw [HandleServerMessage_calls_eq, h], fun v hv => ?_⟩
  exact HandleServerMessage_of_returned W rawData app (some r) v (by rw [h]; exact hv)

/-- Claim C4. Each of the twelve command events is handed, through `app.WrapperServerMsg`,
to exactly one handler, the one fixed for the event, and the wrapper's return value is
returned unchanged; which handlers are called depends on the event field only. -/
theorem HandleServerMessage_command_dispatch {App : Type} (WrapperServerMsg : Wrapper App)
    (rawData : Bytes) (appInstance : App) (r : pb.ServerMessage) :
    (r.Event = .EVENT_UPDATE_FRPC →
      DispatchesTo WrapperServerMsg rawData appInstance r .UpdateFrpcHander) ∧
    (r.Event = .EVENT_REMOVE_FRPC →
      DispatchesTo WrapperServerMsg rawData appInstance r .RemoveFrpcHandler) ∧
    (r.Event = .EVENT_START_FRPC →
      DispatchesTo WrapperServerMsg rawData appInstance r .StartFRPCHandler) ∧
    (r.Event = .EVENT_STOP_FRPC →
      DispatchesTo WrapperServerMsg rawData appInstance r .StopFRPCHandler) ∧
    (r.Event = .EVENT_START_STREAM_LOG →
      DispatchesTo WrapperServerMsg rawData appInstance r .StartSteamLogHandler) ∧
    (r.Event = .EVENT_STOP_STREAM_LOG →
      DispatchesTo WrapperServerMsg rawData appInstance r .StopSteamLogHandler) ∧
    (r.Event = .EVENT_START_PTY_CONNECT →
      DispatchesTo WrapperServerMsg rawData appInstance r .StartPTYConnect) ∧
    (r.Event = .EVENT_GET_PROXY_INFO →
      DispatchesTo WrapperServerMsg rawData appInstance r .GetProxyConfig) ∧
    (r.Event = .EVENT_CREATE_WORKER →
      DispatchesTo WrapperServerMsg rawData appInstance r .CreateWorker) ∧
    (r.Event = .EVENT_REMOVE_WORKER →
      DispatchesTo WrapperServerMsg rawData appInstance r .RemoveWorker) ∧
    (r.Event = .EVENT_GET_WORKER_STATUS →
      DispatchesTo WrapperServerMsg rawData appInstance r .GetWorkerStatus) ∧
    (r.Event = .EVENT_INSTALL_WORKERD →
      DispatchesTo WrapperServerMsg rawData appInstance r .InstallWorkerd) ∧
    (∀ r2 : pb.ServerMessage, r2.Event = r.Event →
      (HandleServerMessage WrapperServerMsg rawData appInstance (some r2)).calls
        = (HandleServerMessage WrapperServerMsg rawData appInstance (some r)).calls) := by
  refine ⟨?_, ?_, ?_, ?_, ?_, ?_, ?_, ?_, ?_, ?_, ?_, ?_, ?_⟩
  case refine_13 =>
    intro r2 h
    rw [HandleServerMessage_calls_eq, HandleServerMessage_calls_eq]
    rcases r with ⟨e, c, s, d⟩
    rcases r2 with ⟨e2, c2, s2, d2⟩
    simp only at h
    subst h
    cases e2 <;> rfl
  all_goals
    intro h
    apply DispatchesTo_of_body
    rcases r with ⟨e, c, s, d⟩
    simp only at h
    subst h
    rfl

/-- Witness of C4: an `EVENT_START_PTY_CONNECT` message goes to `StartPTYConnect` and the
wrapper's reply comes back. -/
theorem HandleServerMessage_command_dispatch_witness :
    DispatchesTo sampleWrapper [] ()
      { Event := .EVENT_START_PTY_CONNECT, ClientId := "c1", SessionId := "s1" }
      .StartPTYConnect :=
  (HandleServerMessage_command_dispatch sampleWrapper [] ()
    { Event := .EVENT_START_PTY_CONNECT, ClientId := "c1", SessionId := "s1" }).2.2.2.2.2.2.1
    rfl

/-- Claim C5. A `EVENT_PING` message is answered inline: no call of `app.WrapperServerMsg`
(hence of no handler) is made and the reply is the `EVENT_PONG` message carrying the
serialized version metadata, whatever the client id, session id and payload of the
request. -/
theorem HandleServerMessage_ping {App : Type} (WrapperServerMsg : Wrapper App)
    (rawData : Bytes) (appInstance : App) (r : pb.ServerMessage)
    (h : r.Event = .EVENT_PING) :
    HandleServerMessage WrapperServerMsg rawData appInstance (some r) =
      { calls := [], recovered := false,
        result := .returned (some { Event := .EVENT_PONG, Data := rawData }) } := by
  rcases r with ⟨e, c, s, d⟩
  simp only at h
  subst h
  rfl

/-- Witness of C5: a ping with client id, session id and payload set. -/
theorem HandleServerMessage_ping_witness :
    HandleServerMessage panickingWrapper [1, 2, 3] ()
        (some { Event := .EVENT_PING, ClientId := "c1", SessionId := "s1", Data := [7] }) =
      { calls := [], recovered := false,
        result := .returned (some { Event := .EVENT_PONG, Data := [1, 2, 3] }) } :=
  HandleServerMessage_ping panickingWrapper [1, 2, 3] ()
    { Event := .EVENT_PING, ClientId := "c1", SessionId := "s1", Data := [7] } rfl

/-! ## Theorems: the interactive session bridge -/

/-- Calls of a flow that starts with one more round. -/
@[simp] theorem Flow.after_trace {ε : Type} (round : List Action) (rest : Flow ε) :
    (Flow.after round rest).trace = round ++ rest.trace := rfl

/-- A round put in front does not change how the flow leaves its loop. -/
@[simp] theorem Flow.after_exit {ε : Type} (round : List Action) (rest : Flow ε) :
    (Flow.after round rest).exit = rest.exit := rfl

/-- The keepalive loop itself neither closes the websocket nor sends the termination
envelope. -/
theorem keepaliveLoop_counts (lastPongTime : Int) (ticks : List KeepaliveTick) :
    (keepaliveLoop lastPongTime ticks).trace.countP Action.isClose = 0 ∧
    (keepaliveLoop lastPongTime ticks).trace.countP Action.isBye = 0 := by
  induction ticks generalizing lastPongTime with
  | nil => simp [keepaliveLoop]
  | cons t ts ih =>
    simp only [keepaliveLoop]
    split_ifs
    · simp [Action.isClose, Action.isBye]
    · simp [Action.isClose, Action.isBye]
    · simp [List.countP_cons, Action.isClose, Action.isBye, ih]

/-- A deferred teardown closes the websocket once and sends one termination envelope. -/
theorem teardown_counts (sessionID : Bytes) (sendOk closeOk : Bool) :
    (teardown sessionID sendOk closeOk).countP Action.isClose = 1 ∧
    (teardown sessionID sendOk closeOk).countP Action.isBye = 1 := by
  simp [teardown, List.countP_cons, Action.isClose, Action.isBye]

/-- A keepalive flow that has returned closed the websocket once and sent one termination
envelope: those of its deferred function. -/
theorem keepaliveFlow_counts (sessionID : Bytes) (start : Int) (sendOk closeOk : Bool)
    (ticks : List KeepaliveTick)
    (h : (keepaliveFlow sessionID start sendOk closeOk ticks).exit.isSome = true) :
    (keepaliveFlow sessionID start sendOk closeOk ticks).trace.countP Action.isClose = 1 ∧
    (keepaliveFlow sessionID start sendOk closeOk ticks).trace.countP Action.isBye = 1 := by
  unfold keepaliveFlow at h ⊢
  have hk := keepaliveLoop_counts start ticks
  have ht := teardown_counts sessionID sendOk closeOk
  cases hx : (keepaliveLoop start ticks).exit with
  | none => simp [hx] at h
  | some e => simp [hx, List.countP_append, hk, ht]

/-- The agent-to-external loop closes the websocket and sends the termination envelope once
when it leaves on a receive error, and not at all when it leaves on the error limit. -/
theorem agentLoop_counts (errorCounter : Nat) (steps : List AgentStep) :
    ((agentLoop errorCounter steps).exit = some .errorLimit →
      (agentLoop errorCounter steps).trace.countP Action.isClose = 0 ∧
      (agentLoop errorCounter steps).trace.countP Action.isBye = 0) ∧
    ((agentLoop errorCounter steps).exit = some .recvFailed →
      (agentLoop errorCounter steps).trace.countP Action.isClose = 1 ∧
      (agentLoop errorCounter steps).trace.countP Action.isBye = 1) := by
  induction steps generalizing errorCounter with
  | nil => unfold agentLoop; split_ifs <;> simp
  | cons s rest ih =>
    cases s with
    | recvErr w sd c =>
      unfold agentLoop
      split_ifs <;> simp [List.countP_cons, Action.isClose, Action.isBye]
    | msg d ok =>
      unfold agentLoop
      split_ifs
      · simp
      · simpa [List.countP_cons, Action.isClose, Action.isBye] using ih (errorCounter + 1)
      · simpa [List.countP_cons, Action.isClose, Action.isBye] using ih 0

/-- An envelope built from a frame never has the `done` flag, so it is not the termination
envelope. -/
theorem payloadMessage_ne_bye (payload : Payload) : payloadMessage payload ≠ byeMessage := by
  intro h
  have := congrArg pb.PTYServerMessage.Done h
  simp [payloadMessage, byeMessage] at this

/-- An external-to-agent flow that has returned closed the websocket once and sent one
termination envelope. -/
theorem externalFlow_counts (steps : List ExternalStep)
    (h : (externalFlow steps).exit.isSome = true) :
    (externalFlow steps).trace.countP Action.isClose = 1 ∧
    (externalFlow steps).trace.countP Action.isBye = 1 := by
  induction steps with
  | nil => simp [externalFlow] at h
  | cons s rest ih =>
    cases s with
    | readErr sd c =>
      simp [externalFlow, List.countP_cons, Action.isClose, Action.isBye]
    | frame p ok =>
      simp only [externalFlow, Flow.after_exit] at h
      simpa [externalFlow, List.countP_cons, Action.isClose, Action.isBye,
        payloadMessage_ne_bye] using ih h

/-- A setup that reaches the relay phase has neither closed the websocket nor sent the
termination envelope. -/
theorem setup_relaying_counts (env : Env) (req : Request) (sessionID : Bytes)
    (trace : List Action) (h : ptyHandler.setup env req = .relaying sessionID trace) :
    trace.countP Action.isClose = 0 ∧ trace.countP Action.isBye = 0 := by
  unfold ptyHandler.setup at h
  repeat' split at h
  all_goals try (simp at h; done)
  all_goals
    simp only [Setup.relaying.injEq] at h
    obtain ⟨-, rfl⟩ := h
    simp [List.countP_cons, Action.isClose, Action.isBye, byeMessage]

/-- Counterexample to C6: in the session `timeoutEnv`, which reaches the relay phase and
returns, the keepalive timeout starts the teardown and every flow repeats it: `Close` is
called four times and the termination envelope is sent four times, not once. -/
theorem ptyHandler_teardown_repeated :
    (∃ trace, ptyHandler.setup timeoutEnv { clientID := "c1" } = .relaying [115, 49] trace) ∧
    (ptyHandler timeoutEnv { clientID := "c1" }).returned = true ∧
    (ptyHandler timeoutEnv { clientID := "c1" }).closeCount = 4 ∧
    (ptyHandler timeoutEnv { clientID := "c1" }).byeCount = 4 ∧
    ¬ ((ptyHandler timeoutEnv { clientID := "c1" }).closeCount = 1 ∧
       (ptyHandler timeoutEnv { clientID := "c1" }).byeCount = 1) := by
  refine ⟨⟨_, rfl⟩, ?_, ?_, ?_, ?_⟩ <;> decide

/-- Claim C6, amended. In every run of `ptyHandler` that reaches the relay phase and returns,
the teardown is carried out by each flow that ends rather than once: the keepalive flow's
deferred function, the external-to-agent flow on its read error and the handler's deferred
function each call `Close` once and send the termination envelope once, so `Close` is
called at least three times and the envelope is sent at least three times; an
agent-to-external flow that ended on a receive error adds a fourth of each. -/
theorem ptyHandler_teardown_count (env : Env) (req : Request) (sessionID : Bytes)
    (trace : List Action)
    (hsetup : ptyHandler.setup env req = .relaying sessionID trace)
    (hret : (ptyHandler env req).returned = true) :
    ((ptyHandler env req).keepalive.countP Action.isClose = 1 ∧
      (ptyHandler env req).keepalive.countP Action.isBye = 1) ∧
    ((ptyHandler env req).external.countP Action.isClose = 1 ∧
      (ptyHandler env req).external.countP Action.isBye = 1) ∧
    ((ptyHandler env req).deferred.countP Action.isClose = 1 ∧
      (ptyHandler env req).deferred.countP Action.isBye = 1) ∧
    3 ≤ (ptyHandler env req).closeCount ∧
    3 ≤ (ptyHandler env req).byeCount ∧
    ((agentFlow env.agent).exit = some .recvFailed →
      (ptyHandler env req).closeCount = 4 ∧ (ptyHandler env req).byeCount = 4) := by
  have hs := setup_relaying_counts env req sessionID trace hsetup
  simp only [ptyHandler, hsetup, Bool.and_eq_true] at hret
  obtain ⟨⟨hk, ha⟩, hx⟩ := hret
  have ck := keepaliveFlow_counts sessionID env.start env.keepaliveSendOk env.keepaliveCloseOk
    env.keepalive hk
  have cx := externalFlow_counts env.external hx
  have ct := teardown_counts sessionID env.finalSendOk env.finalCloseOk
  have ca := agentLoop_counts 0 env.agent
  have hc : (ptyHandler env req).closeCount
      = 3 + (agentFlow env.agent).trace.countP Action.isClose := by
    simp [PtyRun.closeCount, PtyRun.actions, ptyHandler, hsetup, hk, ha, hx,
      List.countP_append, hs.1, ck.1, cx.1, ct.1]
    omega
  have hb : (ptyHandler env req).byeCount
      = 3 + (agentFlow env.agent).trace.countP Action.isBye := by
    simp [PtyRun.byeCount, PtyRun.actions, ptyHandler, hsetup, hk, ha, hx,
      List.countP_append, hs.2, ck.2, cx.2, ct.2]
    omega
  refine ⟨?_, ?_, ?_, by omega, by omega, fun he => ?_⟩
  · simpa [ptyHandler, hsetup] using ck
  · simpa [ptyHandler, hsetup] using cx
  · simpa [ptyHandler, hsetup, hk, ha, hx] using ct
  · have := ca.2 he
    rw [hc, hb]
    unfold agentFlow
    omega

/-- Witness of the amended C6: the session `timeoutEnv`. -/
theorem ptyHandler_teardown_count_witness :
    (ptyHandler timeoutEnv { clientID := "c1" }).returned = true ∧
    3 ≤ (ptyHandler timeoutEnv { clientID := "c1" }).closeCount ∧
    3 ≤ (ptyHandler timeoutEnv { clientID := "c1" }).byeCount :=
  ⟨by decide,
   (ptyHandler_teardown_count timeoutEnv { clientID := "c1" } [115, 49] _ rfl
      (by decide)).2.2.2.1,
   (ptyHandler_teardown_count timeoutEnv { clientID := "c1" } [115, 49] _ rfl
      (by decide)).2.2.2.2.1⟩

/-- Above the limit the loop breaks at once, whatever its inputs. -/
theorem agentLoop_over_limit (c : Nat) (hc : connectionErrorLimit < c) (steps : List AgentStep) :
    agentLoop c steps = { trace := [], exit := some .errorLimit } := by
  cases steps with
  | nil => simp [agentLoop, hc]
  | cons s rest => cases s <;> simp [agentLoop, hc]

/-- Within the limit and with no input yet, the loop waits in `Recv`. -/
theorem agentLoop_under_limit_nil (c : Nat) (hc : c ≤ connectionErrorLimit) :
    agentLoop c [] = { trace := [], exit := none } := by
  simp [agentLoop, Nat.not_lt.mpr hc]

/-- One round of the loop on a received message: the write, then the counter is reset or
incremented. -/
theorem agentLoop_msg (c : Nat) (hc : c ≤ connectionErrorLimit) (d : Bytes) (ok : Bool)
    (rest : List AgentStep) :
    agentLoop c (.msg d ok :: rest) =
      Flow.after [.Recv true, .WriteMessage .BinaryMessage d ok]
        (agentLoop (if ok then 0 else c + 1) rest) := by
  cases ok <;> simp [agentLoop, Nat.not_lt.mpr hc]

/-- A run of failures is no prefix of outcomes that start with a success. -/
theorem replicate_false_not_prefix_true (n : Nat) (hn : 0 < n) (l : List Bool) :
    ¬ List.replicate n false <+: true :: l := by
  obtain ⟨m, rfl⟩ := Nat.exists_eq_succ_of_ne_zero (Nat.pos_iff_ne_zero.mp hn)
  simp [List.replicate_succ, List.cons_prefix_cons]

/-- While the failures seen so far and those to come never add up to a run above the limit,
the loop relays every message and stays within the limit. -/
theorem agentLoop_tolerated (ws : List (Bytes × Bool)) (more : List AgentStep) (c : Nat)
    (hc : c ≤ connectionErrorLimit)
    (hp : ¬ List.replicate (connectionErrorLimit + 1 - c) false <+: ws.map Prod.snd)
    (hi : ¬ List.replicate (connectionErrorLimit + 1) false <:+: ws.map Prod.snd) :
    agentLoop c (received ws ++ more) =
      Flow.after (relayed ws) (agentLoop (counterAfter c (ws.map Prod.snd)) more) ∧
    counterAfter c (ws.map Prod.snd) ≤ connectionErrorLimit := by
  induction ws generalizing c with
  | nil => exact ⟨by simp [received, relayed, counterAfter, Flow.after], hc⟩
  | cons w ws ih =>
    obtain ⟨d, ok⟩ := w
    simp only [List.map_cons, List.infix_cons_iff, not_or] at hp hi
    have hstep : agentLoop c (received ((d, ok) :: ws) ++ more) =
        Flow.after [.Recv true, .WriteMessage .BinaryMessage d ok]
          (agentLoop (if ok then 0 else c + 1) (received ws ++ more)) := by
      simpa [received] using agentLoop_msg c hc d ok (List.map (fun w => .msg w.1 w.2) ws ++ more)
    cases ok with
    | true =>
      have := ih 0 (Nat.zero_le _) (fun h => hi.2 h.isInfix) hi.2
      refine ⟨?_, by simpa [counterAfter] using this.2⟩
      rw [hstep]
      simp only [if_true, this.1]
      simp [Flow.after, relayed, counterAfter]
    | false =>
      have hc1 : c + 1 ≤ connectionErrorLimit := by
        by_contra hcon
        have hc10 : c = connectionErrorLimit := by omega
        apply hp
        subst hc10
        simp [List.replicate_succ, List.cons_prefix_cons]
      have hp1 : ¬ List.replicate (connectionErrorLimit + 1 - (c + 1)) false <+: ws.map Prod.snd := by
        intro h
        apply hp
        have : connectionErrorLimit + 1 - c = (connectionErrorLimit + 1 - (c + 1)) + 1 := by omega
        rw [this, List.replicate_succ, List.cons_prefix_cons]
        exact ⟨rfl, h⟩
      have := ih (c + 1) hc1 hp1 hi.2
      refine ⟨?_, by simpa [counterAfter] using this.2⟩
      rw [hstep]
      simp only [Bool.false_eq_true, if_false, this.1]
      simp [Flow.after, relayed, counterAfter]

/-- A shorter run is a prefix of a longer one. -/
theorem replicate_prefix_replicate {α : Type} (a : α) (m n : Nat) (h : m ≤ n) :
    List.replicate m a <+: List.replicate n a :=
  ⟨List.replicate (n - m) a, by rw [← List.replicate_add]; congr 1; omega⟩

/-- If the write outcomes complete a run above the limit, the loop leaves on the error
limit, whatever follows. -/
theorem agentLoop_gives_up (ws : List (Bytes × Bool)) (more : List AgentStep) (c : Nat)
    (hc : c ≤ connectionErrorLimit)
    (h : List.replicate (connectionErrorLimit + 1 - c) false <+: ws.map Prod.snd ∨
         List.replicate (connectionErrorLimit + 1) false <:+: ws.map Prod.snd) :
    (agentLoop c (received ws ++ more)).exit = some .errorLimit := by
  induction ws generalizing c with
  | nil =>
    exfalso
    have hpos : connectionErrorLimit + 1 - c = (connectionErrorLimit - c) + 1 := by omega
    rcases h with h | h
    · rw [hpos] at h
      simp [List.replicate_succ] at h
    · simp [List.replicate_succ] at h
  | cons w ws ih =>
    obtain ⟨d, ok⟩ := w
    have hstep : agentLoop c (received ((d, ok) :: ws) ++ more) =
        Flow.after [.Recv true, .WriteMessage .BinaryMessage d ok]
          (agentLoop (if ok then 0 else c + 1) (received ws ++ more)) := by
      simpa [received] using agentLoop_msg c hc d ok (List.map (fun w => .msg w.1 w.2) ws ++ more)
    rw [hstep, Flow.after_exit]
    simp only [List.map_cons, List.infix_cons_iff] at h
    cases ok with
    | true =>
      simp only [if_true]
      apply ih 0 (Nat.zero_le _)
      rcases h with h | h | h
      · exact absurd h (replicate_false_not_prefix_true _ (by omega) _)
      · exact absurd h (replicate_false_not_prefix_true _ (by omega) _)
      · exact Or.inr h
    | false =>
      simp only [Bool.false_eq_true, if_false]
      by_cases hc10 : c = connectionErrorLimit
      · rw [agentLoop_over_limit (c + 1) (by omega)]
      · apply ih (c + 1) (by omega)
        have hsplit : connectionErrorLimit + 1 - c
            = (connectionErrorLimit + 1 - (c + 1)) + 1 := by omega
        rcases h with h | h | h
        · rw [hsplit, List.replicate_succ, List.cons_prefix_cons] at h
          exact Or.inl h.2
        · rw [List.replicate_succ, List.cons_prefix_cons] at h
          exact Or.inl (List.IsPrefix.trans
            (replicate_prefix_replicate false _ _ (by omega)) h.2)
        · exact Or.inr h

/-- The counter after two batches of outcomes. -/
theorem counterAfter_append (c : Nat) (p q : List Bool) :
    counterAfter c (p ++ q) = counterAfter (counterAfter c p) q := by
  induction p generalizing c with
  | nil => rfl
  | cons a p ih => simp [counterAfter, ih]

/-- Each failure adds one to the counter. -/
theorem counterAfter_replicate_false (c n : Nat) :
    counterAfter c (List.replicate n false) = c + n := by
  induction n generalizing c with
  | zero => rfl
  | succ n ih => simp [List.replicate_succ, counterAfter, ih]; omega

/-- Outcomes ending in `n` failures leave the counter at `n` or more. -/
theorem counterAfter_of_suffix (c n : Nat) (oks : List Bool)
    (h : List.replicate n false <:+ oks) : n ≤ counterAfter c oks := by
  obtain ⟨p, rfl⟩ := h
  rw [counterAfter_append, counterAfter_replicate_false]
  omega

/-- Relaying two batches of messages. -/
theorem relayed_append (p q : List (Bytes × Bool)) :
    relayed (p ++ q) = relayed p ++ relayed q := by
  induction p with
  | nil => rfl
  | cons a p ih => simp [relayed, ih]

/-- Inputs of two batches of messages. -/
theorem received_append (p q : List (Bytes × Bool)) :
    received (p ++ q) = received p ++ received q := by
  simp [received]

/-- Claim C7. While `Recv` does not fail, for every sequence `ws` of messages with their write
outcomes: the agent-to-external loop leaves on the error limit exactly when `ws` contains
11 consecutive failed writes; without such a run every message is relayed and the loop
goes on, so failures in runs of at most 10 are tolerated and a success resets the count;
and when the write of one more message completes the first run of 11 failures, the loop
exits right after that write, reading no further input. -/
theorem agent_relay_error_limit (ws : List (Bytes × Bool)) :
    ((agentFlow (received ws)).exit = some .errorLimit ↔
      List.replicate 11 false <:+: ws.map Prod.snd) ∧
    (¬ List.replicate 11 false <:+: ws.map Prod.snd →
      agentFlow (received ws) = { trace := relayed ws, exit := none }) ∧
    (∀ (d : Bytes) (more : List AgentStep),
      ¬ List.replicate 11 false <:+: ws.map Prod.snd →
      List.replicate 10 false <:+ ws.map Prod.snd →
      agentFlow (received (ws ++ [(d, false)]) ++ more) =
        { trace := relayed (ws ++ [(d, false)]), exit := some .errorLimit }) := by
  have tol : ∀ more : List AgentStep, ¬ List.replicate 11 false <:+: ws.map Prod.snd →
      agentLoop 0 (received ws ++ more) =
        Flow.after (relayed ws) (agentLoop (counterAfter 0 (ws.map Prod.snd)) more) ∧
      counterAfter 0 (ws.map Prod.snd) ≤ connectionErrorLimit := fun more hi =>
    agentLoop_tolerated ws more 0 (Nat.zero_le _) (fun h => hi h.isInfix) hi
  refine ⟨⟨fun h => ?_, fun h => ?_⟩, fun hi => ?_, fun d more hi hs => ?_⟩
  · by_contra hi
    have := tol [] hi
    rw [List.append_nil] at this
    rw [agentFlow, this.1, Flow.after_exit, agentLoop_under_limit_nil _ this.2] at h
    simp at h
  · have := agentLoop_gives_up ws [] 0 (Nat.zero_le _) (Or.inr h)
    rwa [List.append_nil] at this
  · have := tol [] hi
    rw [List.append_nil] at this
    rw [agentFlow, this.1, agentLoop_under_limit_nil _ this.2]
    simp [Flow.after]
  · have := tol (.msg d false :: more) hi
    have hk : counterAfter 0 (ws.map Prod.snd) = connectionErrorLimit :=
      Nat.le_antisymm this.2 (counterAfter_of_suffix 0 10 _ hs)
    rw [agentFlow, received_append, List.append_assoc]
    have hr : received [(d, false)] ++ more = .msg d false :: more := rfl
    rw [hr, this.1, hk, agentLoop_msg _ (Nat.le_refl _), relayed_append]
    simp only [Bool.false_eq_true, if_false]
    rw [agentLoop_over_limit _ (Nat.lt_succ_self _)]
    simp [Flow.after, relayed]

/-- Witness of C7: ten failed writes are tolerated and the eleventh ends the loop, a further
message being left unread. -/
theorem agent_relay_error_limit_witness :
    agentFlow (received (List.replicate 10 ([120], false) ++ [([121], false)])
        ++ [.msg [122] true]) =
      { trace := relayed (List.replicate 10 ([120], false) ++ [([121], false)]),
        exit := some .errorLimit } :=
  (agent_relay_error_limit (List.replicate 10 ([120], false))).2.2 [121] [.msg [122] true]
    (by decide) (by decide)

/-- Claim C8, the code at the failing input `burstEnv`: after eleven consecutive failed
writes the agent-to-external flow leaves its loop without sending the termination envelope
and without closing the websocket; the handler has not returned and no flow has sent the
envelope or closed the websocket. -/
theorem ptyHandler_error_limit_no_teardown :
    (agentFlow burstEnv.agent).exit = some .errorLimit ∧
    (ptyHandler burstEnv { clientID := "c1" }).agent.countP Action.isClose = 0 ∧
    (ptyHandler burstEnv { clientID := "c1" }).agent.countP Action.isBye = 0 ∧
    (ptyHandler burstEnv { clientID := "c1" }).returned = false ∧
    (ptyHandler burstEnv { clientID := "c1" }).closeCount = 0 ∧
    (ptyHandler burstEnv { clientID := "c1" }).byeCount = 0 := by
  decide

/-- Counterexample to C9: for a request with `height=abc` and a successful upgrade, the
upgrade is completed, the connection is then closed, and no HTTP error response is
written. -/
theorem ptyHandler_malformed_size_upgraded :
    (("abc" : String) ≠ "" ∧ strconv.Atoi "abc" = none) ∧
    (ptyHandler {} { clientID := "c1", height := "abc" }).actions
      = [.Upgrade true, .Close true] ∧
    Action.Upgrade true ∈ (ptyHandler {} { clientID := "c1", height := "abc" }).actions ∧
    Action.JSON 400 "websocket connect error"
      ∉ (ptyHandler {} { clientID := "c1", height := "abc" }).actions := by
  decide

/-- With a malformed height or width the setup ends right after the upgrade. -/
theorem setup_malformed_size (env : Env) (req : Request)
    (h : (req.height ≠ "" ∧ strconv.Atoi req.height = none) ∨
         (req.width ≠ "" ∧ strconv.Atoi req.width = none)) :
    ptyHandler.setup env req =
      if env.upgradeOk then .rejected [.Upgrade true, .Close true]
      else .rejected [.Upgrade false, .JSON 400 "websocket connect error"] := by
  unfold ptyHandler.setup
  cases hu : env.upgradeOk
  · simp
  · simp only [Bool.not_true, Bool.false_eq_true, if_false, if_true]
    by_cases hc : req.clientID.length = 0
    · simp [hc]
    · simp only [hc, if_false]
      rcases h with ⟨h1, h2⟩ | ⟨h1, h2⟩
      · simp [h1, h2]
      · cases hh : (if req.height ≠ "" then strconv.Atoi req.height else some 0) with
        | none => rfl
        | some v => simp [h1, h2]

/-- Claim C9, amended. For every request whose height or width query parameter is non-empty
and not a valid integer, `ptyHandler` returns without ever calling `rpc.CallClient`; when
the upgrade succeeds it has been completed and the handler only closes the upgraded
connection, and the error response (status 400) is written only when the upgrade itself
fails. -/
theorem ptyHandler_malformed_size (env : Env) (req : Request)
    (h : (req.height ≠ "" ∧ strconv.Atoi req.height = none) ∨
         (req.width ≠ "" ∧ strconv.Atoi req.width = none)) :
    (∀ id e ok, Action.CallClient id e ok ∉ (ptyHandler env req).actions) ∧
    (ptyHandler env req).returned = true ∧
    (env.upgradeOk = true →
      (ptyHandler env req).actions = [.Upgrade true, .Close true]) ∧
    (env.upgradeOk = false →
      (ptyHandler env req).actions = [.Upgrade false, .JSON 400 "websocket connect error"]) := by
  have hs := setup_malformed_size env req h
  cases hu : env.upgradeOk <;>
    simp [ptyHandler, hs, hu, PtyRun.actions]

/-- Witness of the amended C9: the request with `height=abc`. -/
theorem ptyHandler_malformed_size_witness :
    (("abc" : String) ≠ "" ∧ strconv.Atoi "abc" = none) ∧
    (∀ id e ok, Action.CallClient id e ok
      ∉ (ptyHandler {} { clientID := "c1", height := "abc" }).actions) ∧
    (ptyHandler {} { clientID := "c1", height := "abc" }).returned = true :=
  ⟨by decide,
   (ptyHandler_malformed_size {} { clientID := "c1", height := "abc" }
      (Or.inl (by decide))).1,
   (ptyHandler_malformed_size {} { clientID := "c1", height := "abc" }
      (Or.inl (by decide))).2.1⟩

/-- Counterexample to C10: with no acknowledgment and the second check read one nanosecond
later than 10s after the start, the flow disconnects at the check after the second probe;
no third probe is written. -/
theorem keepalive_second_check_disconnects :
    keepaliveLoop 0 (noAck [5 * Second, 10 * Second + 1]) =
      { trace := pingRound ++ pingRound, exit := some .timedOut } ∧
    ¬ (keepaliveLoop 0 (noAck [5 * Second, 10 * Second + 1])).exit = none := by
  decide

/-- One more round at the end of a number of rounds. -/
theorem pingRounds_succ_end (n : Nat) : pingRounds n ++ pingRound = pingRounds (n + 1) := by
  induction n with
  | zero => simp [pingRounds]
  | succ n ih => simp only [pingRounds, List.append_assoc, ih]

/-- While no acknowledgment arrives and every check is read within the timeout, the loop
goes from round to round. -/
theorem keepaliveLoop_noAck_early (start : Int) (early : List Int)
    (more : List KeepaliveTick)
    (hearly : ∀ now ∈ early, now - start ≤ keepalivePingTimeout) :
    keepaliveLoop start (noAck early ++ more) =
      Flow.after (pingRounds early.length) (keepaliveLoop start more) := by
  induction early with
  | nil => simp [noAck, pingRounds, Flow.after]
  | cons now early ih =>
    have h1 : ¬ now - start > keepalivePingTimeout :=
      not_lt.mpr (hearly now (List.mem_cons_self _ _))
    have ih' := ih (fun n hn => hearly n (List.mem_cons_of_mem _ hn))
    simp only [noAck, List.map_cons, List.cons_append, keepaliveLoop] at ih' ⊢
    simp [h1, ih', Flow.after, pingRounds, pingRound]

/-- Claim C10, amended. In a round of the keepalive loop whose ping was written, the flow
disconnects at the check exactly when the time since the last acknowledgment, as read at
that check, is strictly greater than the keepalive timeout, and otherwise goes on with the
next round.  With the last acknowledgment time initialised to the start and no
acknowledgment at all, the flow passes every check read at most the timeout after the
start and disconnects at the first check read later than that, however many probes were
written before. -/
theorem keepalive_disconnect_rule (lastPongTime start : Int) (t : KeepaliveTick)
    (ts more : List KeepaliveTick) (early : List Int) (late : Int)
    (hping : t.pingOk = true)
    (hearly : ∀ now ∈ early, now - start ≤ keepalivePingTimeout)
    (hlate : late - start > keepalivePingTimeout) :
    ((keepaliveLoop lastPongTime [t]).exit = some .timedOut ↔
      t.now - t.pong.getD lastPongTime > keepalivePingTimeout) ∧
    (t.now - t.pong.getD lastPongTime > keepalivePingTimeout →
      keepaliveLoop lastPongTime (t :: ts) = { trace := pingRound, exit := some .timedOut }) ∧
    (¬ t.now - t.pong.getD lastPongTime > keepalivePingTimeout →
      keepaliveLoop lastPongTime (t :: ts) =
        Flow.after pingRound (keepaliveLoop (t.pong.getD lastPongTime) ts)) ∧
    keepaliveLoop start (noAck early) =
      { trace := pingRounds early.length, exit := none } ∧
    keepaliveLoop start (noAck (early ++ [late]) ++ more) =
      { trace := pingRounds (early.length + 1), exit := some .timedOut } := by
  refine ⟨?_, ?_, ?_, ?_, ?_⟩
  · by_cases h : t.now - t.pong.getD lastPongTime > keepalivePingTimeout
    · simp [keepaliveLoop, hping, h]
    · simp [keepaliveLoop, hping, h, Flow.after]
  · intro h
    simp [keepaliveLoop, hping, h, pingRound]
  · intro h
    simp [keepaliveLoop, hping, h, pingRound]
  · have := keepaliveLoop_noAck_early start early [] hearly
    rw [List.append_nil] at this
    rw [this]
    simp [keepaliveLoop, Flow.after]
  · have h := keepaliveLoop_noAck_early start early
      ({ pingOk := true, pong := none, now := late } :: more) hearly
    have hsplit : noAck (early ++ [late]) ++ more =
        noAck early ++ ({ pingOk := true, pong := none, now := late } :: more) := by
      simp [noAck]
    rw [hsplit, h]
    simp only [keepaliveLoop, hlate, Flow.after, Bool.not_true, Bool.false_eq_true, if_false,
      if_true, Option.getD_none]
    exact congrArg (fun tr => ({ trace := tr, exit := some .timedOut } : Flow KeepaliveExit))
      (pingRounds_succ_end early.length)

/-- Witness of the amended C10: checks read at 5s, 10s and 10s + 1ns after the start. -/
theorem keepalive_disconnect_rule_witness :
    (∀ now ∈ [5 * Second, 10 * Second], now - 0 ≤ keepalivePingTimeout) ∧
    (10 * Second + 1 - 0 > keepalivePingTimeout) ∧
    keepaliveLoop 0 (noAck ([5 * Second, 10 * Second] ++ [10 * Second + 1]) ++ []) =
      { trace := pingRounds 3, exit := some .timedOut } :=
  ⟨by decide, by decide,
   (keepalive_disconnect_rule 0 0 ⟨true, none, 15 * Second⟩ [] [] [5 * Second, 10 * Second]
      (10 * Second + 1) rfl (by decide) (by decide)).2.2.2.2⟩

/-- The trace of the keepalive loop is a number of full rounds, followed by the failed ping
when the loop left on it. -/
theorem keepaliveLoop_rounds (lastPongTime : Int) (ticks : List KeepaliveTick) :
    ∃ n, (keepaliveLoop lastPongTime ticks).trace =
      pingRounds n ++
        (if (keepaliveLoop lastPongTime ticks).exit = some .pingFailed
          then [.WriteMessage .PingMessage (bytesOf "keepalive") false] else []) := by
  induction ticks generalizing lastPongTime with
  | nil => exact ⟨0, by simp [keepaliveLoop, pingRounds]⟩
  | cons t ts ih =>
    obtain ⟨n, hn⟩ := ih (t.pong.getD lastPongTime)
    cases hp : t.pingOk
    · exact ⟨0, by simp [keepaliveLoop, hp, pingRounds]⟩
    · by_cases hgt : t.now - t.pong.getD lastPongTime > keepalivePingTimeout
      · exact ⟨1, by simp [keepaliveLoop, hp, hgt, pingRounds, pingRound]⟩
      · exact ⟨n + 1, by simp [keepaliveLoop, hp, hgt, pingRounds, pingRound, hn]⟩

/-- Claim C11. The keepalive timeout is 10 seconds and the probe interval is 5 seconds,
exactly one half of it: the division by two leaves no remainder, and in every run of the
keepalive loop each written probe is followed by one sleep of `keepalivePingTimeout / 2`
before the check and the next probe. -/
theorem keepalive_interval_half_timeout (lastPongTime : Int) (ticks : List KeepaliveTick) :
    keepalivePingTimeout = 10 * Second ∧
    keepalivePingTimeout / 2 = 5 * Second ∧
    keepalivePingTimeout % 2 = 0 ∧
    2 * (keepalivePingTimeout / 2) = keepalivePingTimeout ∧
    pingRound = [.WriteMessage .PingMessage (bytesOf "keepalive") true,
                 .Sleep (keepalivePingTimeout / 2)] ∧
    ∃ n, (keepaliveLoop lastPongTime ticks).trace =
      pingRounds n ++
        (if (keepaliveLoop lastPongTime ticks).exit = some .pingFailed
          then [.WriteMessage .PingMessage (bytesOf "keepalive") false] else []) :=
  ⟨rfl, by decide, by decide, by decide, rfl, keepaliveLoop_rounds lastPongTime ticks⟩

/-- The external-to-agent loop forwards a batch of frames and goes on with what follows. -/
theorem externalFlow_framed (fs : List (Payload × Bool)) (more : List ExternalStep) :
    externalFlow (framed fs ++ more) = Flow.after (forwarded fs) (externalFlow more) := by
  induction fs with
  | nil => simp [framed, forwarded, Flow.after]
  | cons f fs ih =>
    have hcons : framed (f :: fs) ++ more = .frame f.1 f.2 :: (framed fs ++ more) := rfl
    rw [hcons, externalFlow, ih]
    simp [Flow.after, forwarded]

/-- The `Send` attempts of two traces put together. -/
theorem sendAttempts_append (p q : List Action) :
    sendAttempts (p ++ q) = sendAttempts p ++ sendAttempts q := by
  induction p with
  | nil => rfl
  | cons a p ih => cases a <;> simp [sendAttempts, ih]

/-- Forwarding a batch of frames makes one `Send` attempt per frame, in order. -/
theorem sendAttempts_forwarded (fs : List (Payload × Bool)) :
    sendAttempts (forwarded fs) = fs.map (fun f => (payloadMessage f.1, f.2)) := by
  induction fs with
  | nil => rfl
  | cons f fs ih => simp [forwarded, sendAttempts, ih]

/-- Claim C12. For every finite sequence `fs` of frames read from the external endpoint, with
any outcomes of their `Send`s: the external-to-agent flow makes exactly one `Send` attempt
per frame, in the order read, each through the same envelope construction; a failed `Send`
does not stop the flow, which is still in its loop after the last frame; and when the
first read error follows, the only further `Send` is that of the termination envelope. -/
theorem externalFlow_send_order (fs : List (Payload × Bool)) (sendOk closeOk : Bool) :
    sendAttempts (externalFlow (framed fs)).trace
      = fs.map (fun f => (payloadMessage f.1, f.2)) ∧
    (externalFlow (framed fs)).exit = none ∧
    sendAttempts (externalFlow (framed fs ++ [.readErr sendOk closeOk])).trace
      = fs.map (fun f => (payloadMessage f.1, f.2)) ++ [(byeMessage, sendOk)] ∧
    (externalFlow (framed fs ++ [.readErr sendOk closeOk])).exit = some .readFailed := by
  have h0 := externalFlow_framed fs []
  have h1 := externalFlow_framed fs [.readErr sendOk closeOk]
  rw [List.append_nil] at h0
  rw [h0, h1]
  simp [Flow.after, externalFlow, sendAttempts_append, sendAttempts_forwarded, sendAttempts]

/-- While every write succeeds the agent-to-external loop relays a batch of messages with
its counter at zero and goes on with what follows. -/
theorem agentLoop_all_written (ds : List Bytes) (more : List AgentStep) :
    agentLoop 0 (received (ds.map (fun d => (d, true))) ++ more) =
      Flow.after (relayed (ds.map (fun d => (d, true)))) (agentLoop 0 more) := by
  induction ds with
  | nil => simp [received, relayed, Flow.after]
  | cons d ds ih =>
    have hstep := agentLoop_msg 0 (Nat.zero_le _) d true
      (received (ds.map (fun d => (d, true))) ++ more)
    simp only [received, List.map_cons, List.cons_append, List.map_map] at hstep ih ⊢
    rw [hstep]
    simp only [if_true, ih]
    simp [Flow.after, relayed]

/-- The binary frames of two traces put together. -/
theorem binaryWrites_append (p q : List Action) :
    binaryWrites (p ++ q) = binaryWrites p ++ binaryWrites q := by
  induction p with
  | nil => rfl
  | cons a p ih =>
    cases a with
    | WriteMessage ty d ok => cases ty <;> simp [binaryWrites, ih]
    | _ => simp [binaryWrites, ih]

/-- Relaying a batch of messages writes the data of each as one binary frame, in order. -/
theorem binaryWrites_relayed (ws : List (Bytes × Bool)) :
    binaryWrites (relayed ws) = ws.map Prod.fst := by
  induction ws with
  | nil => rfl
  | cons w ws ih => simp [relayed, binaryWrites, ih]

/-- Claim C13. For every finite sequence `ds` of message payloads received from the agent
stream, if every write to the external endpoint succeeds, the agent-to-external flow
writes exactly one binary frame per message, in the order received, each frame carrying
the message's data unchanged, and it is still in its loop afterwards, going on with
whatever input follows. -/
theorem agentFlow_write_order (ds : List Bytes) (more : List AgentStep) :
    binaryWrites (agentFlow (received (ds.map (fun d => (d, true))))).trace = ds ∧
    (agentFlow (received (ds.map (fun d => (d, true))))).exit = none ∧
    agentFlow (received (ds.map (fun d => (d, true))) ++ more) =
      Flow.after (relayed (ds.map (fun d => (d, true)))) (agentFlow more) := by
  have h0 := agentLoop_all_written ds []
  rw [List.append_nil] at h0
  refine ⟨?_, ?_, agentLoop_all_written ds more⟩
  · rw [agentFlow, h0]
    simp [Flow.after, agentLoop, binaryWrites_relayed, connectionErrorLimit,
      List.map_map, Function.comp_def]
  · rw [agentFlow, h0]
    simp [Flow.after, agentLoop, connectionErrorLimit]

/-- Converting a `uint16` value with `int32` keeps the number. -/
theorem int32_of_uint16 (n : Nat) (h : n ≤ 65535) : int32 ((n % 65536 : Nat) : Int) = n := by
  rw [Nat.mod_eq_of_lt (by omega)]
  unfold int32
  norm_num
  omega

/-- Claim C14. For every decoded frame whose height and width, when present, are within
0..65535, the envelope built by the external-to-agent flow has its data set to the bytes
of the data string exactly when data is present, its height and width set to the same
numbers exactly when they are present, every absent field left unset, and the done flag
not set; that envelope is the one handed to `Send` for the frame. -/
theorem payloadMessage_fields (payload : Payload) (sendOk : Bool) (rest : List ExternalStep)
    (hh : ∀ h, payload.Height = some h → h ≤ 65535)
    (hw : ∀ w, payload.Width = some w → w ≤ 65535) :
    payloadMessage payload =
      { Data := payload.Data.map bytesOf,
        Height := payload.Height.map (fun h => (h : Int)),
        Width := payload.Width.map (fun w => (w : Int)),
        Done := false } ∧
    ((payloadMessage payload).Data = none ↔ payload.Data = none) ∧
    ((payloadMessage payload).Height = none ↔ payload.Height = none) ∧
    ((payloadMessage payload).Width = none ↔ payload.Width = none) ∧
    (payloadMessage payload).Done = false ∧
    (externalFlow (.frame payload sendOk :: rest)).trace =
      .ReadMessage true :: .Send (payloadMessage payload) sendOk ::
        (externalFlow rest).trace := by
  refine ⟨?_, by simp [payloadMessage], by simp [payloadMessage], by simp [payloadMessage],
    rfl, rfl⟩
  rcases payload with ⟨d, h, w⟩
  simp only [payloadMessage, pb.PTYServerMessage.mk.injEq, true_and, and_true]
  constructor
  · cases h with
    | none => rfl
    | some h => exact congrArg some (int32_of_uint16 h (hh h rfl))
  · cases w with
    | none => rfl
    | some w => exact congrArg some (int32_of_uint16 w (hw w rfl))

/-- Witness of C14: a resize frame of 40 rows and 120 columns without data. -/
theorem payloadMessage_fields_witness :
    payloadMessage { Height := some 40, Width := some 120 } =
      { Data := none, Height := some 40, Width := some 120, Done := false } :=
  (payloadMessage_fields { Height := some 40, Width := some 120 } true []
    (by intro h hh; cases hh; decide) (by intro w hw; cases hw; decide)).1

/-- Claim C15. Whenever `ptyHandler` returns after the session was found in the session
table, its deferred function has run in full whatever the outcomes of its best-effort
steps: the termination envelope was sent (successfully or not), then `SetSessionDone` was
called for the session id, then `Close` was called on the websocket (successfully or
not). -/
theorem ptyHandler_final_teardown (env : Env) (req : Request) (sessionID : Bytes)
    (trace : List Action)
    (hsetup : ptyHandler.setup env req = .relaying sessionID trace)
    (hret : (ptyHandler env req).returned = true) :
    (ptyHandler env req).deferred =
      [.Send byeMessage env.finalSendOk, .SetSessionDone sessionID,
       .Close env.finalCloseOk] ∧
    Action.SetSessionDone sessionID ∈ (ptyHandler env req).actions ∧
    Action.Close env.finalCloseOk ∈ (ptyHandler env req).actions := by
  have hd : (ptyHandler env req).deferred =
      [.Send byeMessage env.finalSendOk, .SetSessionDone sessionID,
       .Close env.finalCloseOk] := by
    simp only [ptyHandler, hsetup] at hret ⊢
    simp [hret, teardown]
  refine ⟨hd, ?_, ?_⟩ <;> simp [PtyRun.actions, hd]

/-- Witness of C15: the session `timeoutEnv`, in which both the final `Send` and the final
`Close` fail. -/
theorem ptyHandler_final_teardown_witness :
    timeoutEnv.finalSendOk = false ∧ timeoutEnv.finalCloseOk = false ∧
    (ptyHandler timeoutEnv { clientID := "c1" }).deferred =
      [.Send byeMessage false, .SetSessionDone [115, 49], .Close false] :=
  ⟨rfl, rfl,
   (ptyHandler_final_teardown timeoutEnv { clientID := "c1" } [115, 49] _ rfl
      (by decide)).1⟩

/-- Claim C19, the code at the failing input `lostSessionEnv`: the upgrade succeeded, the
session id returned by the agent is not in the session table, and the handler returns
after writing a JSON error, without a single call of `Close` on the websocket. -/
theorem ptyHandler_lost_session_not_closed :
    (ptyHandler lostSessionEnv { clientID := "c1" }).actions =
      [.Upgrade true, .CallClient "c1" .EVENT_START_PTY_CONNECT true, .Unmarshal true,
       .Load [115, 49] false, .JSON 500 "cannot get client"] ∧
    (ptyHandler lostSessionEnv { clientID := "c1" }).returned = true ∧
    (ptyHandler lostSessionEnv { clientID := "c1" }).closeCount = 0 := by
  decide

/-! ## Theorems: command-line scaffolding -/

/-- A string has length zero exactly when it is the empty string. -/
theorem length_eq_zero_iff (s : String) : s.length = 0 ↔ s = "" := by
  cases s with
  | mk l => simp [String.length, String.ext_iff]

/-- Claim C16, the code at two failing inputs: with `--api-host` given and an empty
`RpcHost`, `patchConfig` returns the configuration with its previous `Master.APIHost`, not
the given api host; with `--api-host` given and a nil `RpcHost`, it faults on the
dereference of `RpcHost`. -/
theorem patchConfig_api_host_not_applied :
    patchConfig { Master := { APIHost := "old.example.com" } }
        { ApiHost := some "api.example.com", RpcHost := some "" }
      = .returned { Master := { APIHost := "old.example.com" } } ∧
    patchConfig { Master := { APIHost := "old.example.com" } }
        { ApiHost := some "api.example.com", RpcHost := none }
      = .panicked "invalid memory address or nil pointer dereference" := by
  decide

/-- Claim C17. `NewAutoJoin` returns the given configuration unchanged, without calling
`JoinMaster`, when the role is not the client role, and also when client id and client
secret are both non-empty, whatever the join token; when the role is the client role, the
id or the secret is empty and a non-empty join token is supplied, it calls `JoinMaster`
once, with the given configuration and arguments, and when that call returns a client
without error the returned configuration is the given one with `Client.ID` and
`Client.Secret` replaced by the id and secret of that client. -/
theorem NewAutoJoin_auto_join (env : JoinEnv) (Role : AppRole) (Cfg : conf.Config)
    (commonArgs : CommonArgs) :
    (Role ≠ .AppRole_Client →
      NewAutoJoin env Role Cfg commonArgs = { joinCalls := [], result := .returned Cfg }) ∧
    (Cfg.Client.ID ≠ "" → Cfg.Client.Secret ≠ "" →
      NewAutoJoin env Role Cfg commonArgs = { joinCalls := [], result := .returned Cfg }) ∧
    (Role = .AppRole_Client → (Cfg.Client.ID = "" ∨ Cfg.Client.Secret = "") →
      ∀ token, commonArgs.JoinToken = some token → token ≠ "" →
        (NewAutoJoin env Role Cfg commonArgs).joinCalls = [(Cfg, commonArgs)] ∧
        ∀ cli, JoinMaster env Cfg commonArgs = .returned (cli, none) →
          (NewAutoJoin env Role Cfg commonArgs).result =
            .returned { Cfg with Client := { Cfg.Client with
                                              ID := pb.Client.GetId cli,
                                              Secret := pb.Client.GetSecret cli } }) := by
  refine ⟨fun hr => ?_, fun hid hsec => ?_, fun hr hempty token htok hne => ?_⟩
  · simp [NewAutoJoin, hr]
  · have h1 : Cfg.Client.ID.length ≠ 0 := fun h => hid ((length_eq_zero_iff _).mp h)
    have h2 : Cfg.Client.Secret.length ≠ 0 := fun h => hsec ((length_eq_zero_iff _).mp h)
    by_cases hr : Role = .AppRole_Client <;> simp [NewAutoJoin, hr, h1, h2]
  · have hcond : Cfg.Client.Secret.length = 0 ∨ Cfg.Client.ID.length = 0 := by
      rcases hempty with h | h
      · exact Or.inr ((length_eq_zero_iff _).mpr h)
      · exact Or.inl ((length_eq_zero_iff _).mpr h)
    have htl : 0 < token.length :=
      Nat.pos_of_ne_zero (fun h => hne ((length_eq_zero_iff _).mp h))
    have hgate : NewAutoJoin env Role Cfg commonArgs =
        match JoinMaster env Cfg commonArgs with
        | .panicked fault => { joinCalls := [(Cfg, commonArgs)], result := .panicked fault }
        | .returned (_, some err) =>
          { joinCalls := [(Cfg, commonArgs)],
            result := .exited ("join master failed: " ++ err) }
        | .returned (cli, none) =>
          { joinCalls := [(Cfg, commonArgs)],
            result := .returned
              { Cfg with Client := { Cfg.Client with ID := pb.Client.GetId cli,
                                                     Secret := pb.Client.GetSecret cli } } } := by
      simp [NewAutoJoin, hr, hcond, htok, htl]
    rw [hgate]
    refine ⟨?_, fun cli hj => ?_⟩
    · split <;> rfl
    · rw [hj]

/-- Witness of C17: a client without id and secret, the join token `tok`, and a master that
knows the client `c1`. -/
theorem NewAutoJoin_auto_join_witness :
    (NewAutoJoin knownClientEnv .AppRole_Client { Client := { APIUrl := "http://m:9000" } }
        sampleJoinArgs).joinCalls
      = [({ Client := { APIUrl := "http://m:9000" } }, sampleJoinArgs)] ∧
    (NewAutoJoin knownClientEnv .AppRole_Client { Client := { APIUrl := "http://m:9000" } }
        sampleJoinArgs).result
      = .returned { Client := { ID := "c1", Secret := "s3cr3t", APIUrl := "http://m:9000" } } :=
  ⟨((NewAutoJoin_auto_join knownClientEnv .AppRole_Client
      { Client := { APIUrl := "http://m:9000" } } sampleJoinArgs).2.2
      rfl (Or.inl rfl) "tok" rfl (by decide)).1,
   ((NewAutoJoin_auto_join knownClientEnv .AppRole_Client
      { Client := { APIUrl := "http://m:9000" } } sampleJoinArgs).2.2
      rfl (Or.inl rfl) "tok" rfl (by decide)).2
      (some { Id := "c1", Secret := "s3cr3t" }) rfl⟩

/-- Claim C18, the code at a failing input: when `rpc.GetClient` answers with the success
status and no client, without error, `JoinMaster` returns a nil client together with a nil
error. -/
theorem JoinMaster_nil_client_nil_error :
    JoinMaster noClientEnv {} sampleJoinArgs = .returned (none, none) := by
  decide

/-- Counterexample to C20: for join arguments with both urls and a nil join token
`checkPullParams` returns no error although the token is nil, and `JoinMaster` called with
them faults on the dereference of the token. -/
theorem checkPullParams_accepts_nil_token :
    checkPullParams { sampleJoinArgs with JoinToken := none } = none ∧
    ({ sampleJoinArgs with JoinToken := none } : CommonArgs).JoinToken = none ∧
    (∀ env cfg, JoinMaster env cfg { sampleJoinArgs with JoinToken := none }
      = .panicked "invalid memory address or nil pointer dereference") :=
  ⟨by decide, rfl, fun _ _ => rfl⟩

/-- Claim C20, amended. Whenever `checkPullParams` returns no error for join arguments whose
join token is non-nil, the join token, the api url and the rpc url are all non-nil and
non-empty, and `JoinMaster` returns without faulting on the dereference of the token.
Conversely `checkPullParams` returns an error whenever the api url or the rpc url is nil
or empty. -/
theorem checkPullParams_ok_safe (joinArgs : CommonArgs) (token : String)
    (htoken : joinArgs.JoinToken = some token)
    (hok : checkPullParams joinArgs = none) :
    token ≠ "" ∧
    (∃ apiUrl, joinArgs.ApiUrl = some apiUrl ∧ apiUrl ≠ "") ∧
    (∃ rpcUrl, joinArgs.RpcUrl = some rpcUrl ∧ rpcUrl ≠ "") ∧
    (∀ env cfg, ∃ v, JoinMaster env cfg joinArgs = .returned v) ∧
    (∀ other : CommonArgs,
      (other.ApiUrl = none ∨ other.ApiUrl = some "" ∨
       other.RpcUrl = none ∨ other.RpcUrl = some "") →
      checkPullParams other ≠ none) := by
  have e : ("" : String).length = 0 := rfl
  refine ⟨?_, ?_, ?_, fun env cfg => ?_, fun other h => ?_⟩
  · intro h
    subst h
    simp [checkPullParams, htoken, e] at hok
  · cases ha : joinArgs.ApiUrl with
    | none =>
      unfold checkPullParams at hok
      simp only [htoken, ha] at hok
      split_ifs at hok
      all_goals simp_all
    | some a =>
      refine ⟨a, rfl, fun h => ?_⟩
      subst h
      unfold checkPullParams at hok
      simp only [htoken, ha] at hok
      split_ifs at hok
      all_goals simp_all
  · cases hr : joinArgs.RpcUrl with
    | none =>
      unfold checkPullParams at hok
      simp only [htoken, hr] at hok
      split_ifs at hok
      all_goals simp_all
    | some r =>
      refine ⟨r, rfl, fun h => ?_⟩
      subst h
      unfold checkPullParams at hok
      simp only [htoken, hr] at hok
      split_ifs at hok
      all_goals simp_all
  · unfold JoinMaster
    simp only [hok, htoken]
    repeat' split
    all_goals exact ⟨_, rfl⟩
  · unfold checkPullParams
    split_ifs with h1
    · simp
    · rcases h with h | h | h | h
      · simp [h]
      · simp [h, e]
      · simp only [h]
        split_ifs <;> simp_all
      · simp only [h, e]
        split_ifs <;> simp_all

/-- Witness of the amended C20: the join arguments `sampleJoinArgs`. -/
theorem checkPullParams_ok_safe_witness :
    sampleJoinArgs.JoinToken = some "tok" ∧ checkPullParams sampleJoinArgs = none ∧
    ("tok" : String) ≠ "" ∧
    (∃ apiUrl, sampleJoinArgs.ApiUrl = some apiUrl ∧ apiUrl ≠ "") :=
  ⟨rfl, by decide,
   (checkPullParams_ok_safe sampleJoinArgs "tok" rfl (by decide)).1,
   (checkPullParams_ok_safe sampleJoinArgs "tok" rfl (by decide)).2.1⟩

/-! ## Theorems: proxy configuration -/

/-- Past the existence check, with a configuration to update, `SetConfigContent` is called
with the updated proxy list. -/
theorem CreateProxyConfigWithTypedConfig_stored (env : ProxyEnv)
    (param : CreateProxyConfigWithTypedConfigParam) (oldCfg : v1.ClientConfig)
    (hpass : reachesUpdate env param)
    (hget : env.GetConfigContent = (some oldCfg, none)) :
    (CreateProxyConfigWithTypedConfig env param).stored =
      some { oldCfg with Proxies := updateProxies oldCfg.Proxies param.ProxyCfg } := by
  obtain ⟨h1, h2, h3⟩ := hpass
  unfold CreateProxyConfigWithTypedConfig
  simp only [h1, h2, hget]
  rcases h3 with h3 | ⟨h3, ho⟩
  · simp only [h3, Option.isNone_some, Bool.and_false, Bool.false_eq_true, if_false]
    repeat' split
    all_goals rfl
  · simp only [h3, ho, Bool.not_true, Bool.false_and, Bool.false_eq_true, if_false]
    repeat' split
    all_goals rfl

/-- Updating twice with the same proxy gives the same list as updating once. -/
theorem updateProxies_idem (Proxies : List v1.TypedProxyConfig)
    (typedProxyCfg : v1.TypedProxyConfig) :
    updateProxies (updateProxies Proxies typedProxyCfg) typedProxyCfg
      = updateProxies Proxies typedProxyCfg := by
  simp [updateProxies, List.filter_append, List.filter_filter]

/-- Claim C21. When `CreateProxyConfigWithTypedConfig` gets past the existence check and the
client has a configuration, the proxy list handed to `SetConfigContent` is the previous
list without the entries named like the new proxy, in their previous order, followed by the
new proxy; every other field of the configuration is unchanged.  Hence the stored list has
exactly one entry with the new proxy's name, keeps every previous entry with a different
name as often as it occurred, and a second application of the same update to the stored
configuration stores the same configuration again. -/
theorem CreateProxyConfigWithTypedConfig_proxy_list (env : ProxyEnv)
    (param : CreateProxyConfigWithTypedConfigParam) (oldCfg : v1.ClientConfig)
    (hpass : reachesUpdate env param)
    (hget : env.GetConfigContent = (some oldCfg, none)) :
    (CreateProxyConfigWithTypedConfig env param).stored =
      some { oldCfg with
        Proxies := oldCfg.Proxies.filter (fun p => decide (p.Name ≠ param.ProxyCfg.Name))
                    ++ [param.ProxyCfg] } ∧
    (oldCfg.Proxies.filter (fun p => decide (p.Name ≠ param.ProxyCfg.Name))).Sublist
      oldCfg.Proxies ∧
    (∀ p : v1.TypedProxyConfig, p.Name ≠ param.ProxyCfg.Name →
      (updateProxies oldCfg.Proxies param.ProxyCfg).count p = oldCfg.Proxies.count p) ∧
    (updateProxies oldCfg.Proxies param.ProxyCfg).countP
      (fun p => decide (p.Name = param.ProxyCfg.Name)) = 1 ∧
    (∀ p ∈ oldCfg.Proxies, p.Name ≠ param.ProxyCfg.Name →
      p ∈ updateProxies oldCfg.Proxies param.ProxyCfg) ∧
    (∀ env2 : ProxyEnv, reachesUpdate env2 param →
      env2.GetConfigContent = ((CreateProxyConfigWithTypedConfig env param).stored, none) →
      (CreateProxyConfigWithTypedConfig env2 param).stored
        = (CreateProxyConfigWithTypedConfig env param).stored) := by
  have hs := CreateProxyConfigWithTypedConfig_stored env param oldCfg hpass hget
  have hfilter : updateProxies oldCfg.Proxies param.ProxyCfg =
      oldCfg.Proxies.filter (fun p => decide (p.Name ≠ param.ProxyCfg.Name))
        ++ [param.ProxyCfg] := by
    unfold updateProxies
    congr 2
    funext p
    by_cases h : p.Name = param.ProxyCfg.Name <;> simp [h]
  refine ⟨by rw [hs, hfilter], List.filter_sublist _, ?_, ?_, ?_, ?_⟩
  · intro p hp
    rw [hfilter, List.count_append, List.count_filter (by simpa using hp)]
    have : p ≠ param.ProxyCfg := fun h => hp (by rw [h])
    simp [List.count_singleton, this]
  · rw [hfilter, List.countP_append, List.countP_filter]
    simp
  · intro p hp hne
    rw [hfilter]
    exact List.mem_append_left _ (List.mem_filter.mpr ⟨hp, by simpa using hne⟩)
  · intro env2 hpass2 hget2
    rw [hs] at hget2 ⊢
    rw [CreateProxyConfigWithTypedConfig_stored env2 param _ hpass2 hget2]
    simp [updateProxies_idem]

/-- Witness of C21: replacing the proxy `web` in `sampleClientConfig`, which has two entries
of that name around an entry `ssh`. -/
theorem CreateProxyConfigWithTypedConfig_proxy_list_witness :
    reachesUpdate { GetConfigContent := (some sampleClientConfig, none) }
      { ClientID := "c1", ServerID := "s1", ProxyCfg := { Name := "web", Detail := "n" } } ∧
    (CreateProxyConfigWithTypedConfig { GetConfigContent := (some sampleClientConfig, none) }
      { ClientID := "c1", ServerID := "s1",
        ProxyCfg := { Name := "web", Detail := "n" } }).stored =
      some { Proxies := [{ Name := "ssh" }, { Name := "web", Detail := "n" }],
             Other := "auth" } :=
  ⟨⟨rfl, rfl, Or.inl rfl⟩,
   (CreateProxyConfigWithTypedConfig_proxy_list
      { GetConfigContent := (some sampleClientConfig, none) }
      { ClientID := "c1", ServerID := "s1", ProxyCfg := { Name := "web", Detail := "n" } }
      sampleClientConfig ⟨rfl, rfl, Or.inl rfl⟩ rfl).1.trans (by decide)⟩

end FrpPanel
